import Mathlib

/-! # mysqldump-split: threshold policy, batch loop, invocation building and running

A shallow embedding of `main.go`, `cmdargs.go` and `table.go`.

* Go's `int` is the 64-bit two's-complement integer of the 64-bit targets; it
  is modelled as `Int` with explicit wrap-around (`wrapInt`) at each `+=`/`++`.
* Go strings are modelled as Lean strings; `strings.Replace` and
  `strings.Split` are re-implemented structurally on character lists.
* The operating system, the catalog and the standard library calls whose
  results the program only passes along (`path.Join`, `time.Format`,
  `os.Stat`, ...) are fields of `Runtime`; the dump tool is a function `Tool`.
* Loops that need not terminate (`generateTableBackup`) take a fuel argument
  bounding the iterations of one loop; running out of it is reported as
  `Outcome.outOfFuel`, together with the invocations made so far.
-/

namespace MysqldumpSplit

/-! ## Go integers -/

/-- Reduction of a mathematical integer into the range of a 64-bit Go `int`
(two's-complement wrap-around, as the Go specification defines overflow). -/
def wrapInt (x : Int) : Int :=
  (x + 9223372036854775808) % 18446744073709551616 - 9223372036854775808

/-- Go's `a + b` on `int`. -/
def goAdd (a b : Int) : Int := wrapInt (a + b)

/-- The largest Go `int`, `math.MaxInt64`. -/
def maxInt : Int := 9223372036854775807

/-- The smallest Go `int`, `math.MinInt64`. -/
def minInt : Int := -9223372036854775808

/-- `fmt.Sprintf("%d", n)`. -/
def fmtInt (n : Int) : String := toString n

/-! ## The `strings` functions used by the program -/

/-- Worker of `Replace`: `skip` counts the characters of a matched `old` still
to be dropped. Matches are found left to right and do not overlap. -/
def replaceChars (old new : List Char) : Nat → List Char → List Char
  | _, [] => []
  | skip + 1, _ :: cs => replaceChars old new skip cs
  | 0, c :: cs =>
    if old.isPrefixOf (c :: cs) then new ++ replaceChars old new (old.length - 1) cs
    else c :: replaceChars old new 0 cs

/-- `strings.Replace(s, old, new, -1)` for a non-empty `old` (every call in the
program passes a non-empty literal). -/
def Replace (s old new : String) : String :=
  String.mk (replaceChars old.data new.data 0 s.data)

/-- Worker of `Split` on character lists. -/
def splitChars (sep : Char) : List Char → List (List Char)
  | [] => [[]]
  | c :: cs =>
    if c = sep then [] :: splitChars sep cs
    else
      match splitChars sep cs with
      | [] => [[c]]
      | w :: ws => (c :: w) :: ws

/-- `strings.Split(s, sep)` for a one-character separator (the program splits
on `" "` and on `","` only). -/
def Split (s : String) (sep : Char) : List String :=
  (splitChars sep s.data).map String.mk

/-! ## Message levels and `printMessage` (main.go 18-27, 420-436) -/

/-- `Info = 1 << iota` with `iota = 0`. -/
def Info : Int := ((1 <<< 0 : Nat) : Int)

/-- `Warning = 1 << iota` with `iota = 1`. -/
def Warning : Int := ((1 <<< 1 : Nat) : Int)

/-- `Error = 1 << iota` with `iota = 2`. -/
def Error : Int := ((1 <<< 2 : Nat) : Int)

/-- `printMessage`: the lines written to standard output (colour aside). -/
def printMessage (message : String) (verbosity : Int) (messageType : Int) : List String :=
  if verbosity = 2 then [message]
  else if verbosity = 1 ∧ messageType > 1 then [message]
  else if verbosity = 0 ∧ messageType > 2 then [message]
  else []

/-! ## Data model (cmdargs.go, table.go) -/

/-- `Table` (table.go 10-13). -/
structure Table where
  TableName : String
  RowCount : Int
  deriving DecidableEq, Repr

/-- `NewTable` (table.go 16-21). -/
def NewTable (tableName : String) (rowCount : Int) : Table :=
  { TableName := tableName, RowCount := rowCount }

/-- `Options` (cmdargs.go 9-28); `ExecutionStartDate` is an instant, read only
through `Runtime.Format`. -/
structure Options where
  HostName : String
  UserName : String
  Password : String
  Databases : List String
  DatabaseRowCountTreshold : Int
  TableRowCountTreshold : Int
  BatchSize : Int
  ForceSplit : Bool
  AdditionalMySQLDumpArgs : String
  Verbosity : Int
  MySQLDumpPath : String
  OutputDirectory : String
  DefaultsFile : String
  DefaultsProvidedByUser : Bool
  ExecutionStartDate : Nat
  deriving DecidableEq, Repr

/-- The loop of `removeDuplicates` (cmdargs.go 63-72). The Go map
`encountered` is the list of keys set to `true`. -/
def removeDuplicatesLoop : List String → List String → List String → List String
  | [], _, result => result
  | e :: es, encountered, result =>
    if e ∈ encountered then removeDuplicatesLoop es encountered result
    else removeDuplicatesLoop es (e :: encountered) (result ++ [e])

/-- `removeDuplicates` (cmdargs.go 58-75). -/
def removeDuplicates (elements : List String) : List String :=
  removeDuplicatesLoop elements [] []

/-- Lines 32-36 of `NewOptions`: the list `dbs` before `removeDuplicates`. -/
def splitDatabases (databases : String) : List String :=
  let databases := Replace databases " " ""
  let databases := Replace databases " , " ","
  let databases := Replace databases ", " ","
  let databases := Replace databases " ," ","
  Split databases ','

/-- `NewOptions` (cmdargs.go 31-56); `now` is the value of `time.Now()`. -/
def NewOptions (now : Nat) (hostname username password databases : String)
    (databasetreshold tablethreshold batchsize : Int) (forcesplit : Bool)
    (additionals : String) (verbosity : Int)
    (mysqldumppath outputDirectory defaultsFile : String)
    (defaultsProvidedByUser : Bool) : Options :=
  { HostName := hostname
    UserName := username
    Password := password
    Databases := removeDuplicates (splitDatabases databases)
    DatabaseRowCountTreshold := databasetreshold
    TableRowCountTreshold := tablethreshold
    BatchSize := batchsize
    ForceSplit := forcesplit
    AdditionalMySQLDumpArgs := additionals
    Verbosity := verbosity
    MySQLDumpPath := mysqldumppath
    OutputDirectory := outputDirectory
    DefaultsFile := defaultsFile
    DefaultsProvidedByUser := defaultsProvidedByUser
    ExecutionStartDate := now }

/-! ## The world outside the program -/

/-- What the program sees of its platform, of the file system, of the clock
and of the catalog. -/
structure Runtime where
  /-- `runtime.GOOS`. -/
  GOOS : String
  /-- `path.Join`. -/
  Join : List String → String
  /-- `time.Time.Format`, from an instant and a layout. -/
  Format : Nat → String → String
  /-- `time.Now()`. -/
  Now : Nat
  /-- The directory returned by `os.Getwd()` (empty when it fails). -/
  Getwd : String
  /-- Whether `os.Stat` reports that the path does not exist. -/
  IsNotExist : String → Bool
  /-- Whether `os.OpenFile` fails on the path. -/
  OpenFileFails : String → Bool
  /-- Whether `WriteString` fails on the path with this text. -/
  WriteStringFails : String → String → Bool
  /-- The rows of the catalog query of `GetTables` for host, user, password
  and database; `none` when `sql.Open`, `Query` or `Scan` returns an error. -/
  Query : String → String → String → String → Option (List (String × Int))

/-- What one run of the dump tool gives back. `started` tells whether
`cmd.Start()` could start the process; the program discards that error. -/
structure ToolResult where
  stdout : String
  stderr : String
  started : Bool
  deriving DecidableEq, Repr

/-- The dump tool, the executable at `options.MySQLDumpPath`: from the argument
list to the result of the run. -/
abbrev Tool := List String → ToolResult

/-- How a piece of the program ends. -/
inductive Outcome where
  /-- Control reaches the end of the piece. -/
  | finished
  /-- The process ends through `os.Exit(code)`. -/
  | exited (code : Nat)
  /-- The process ends through the `panic` of `checkErr`. -/
  | panicked
  /-- The fuel of a loop is used up before the loop ends. -/
  | outOfFuel
  deriving DecidableEq, Repr

/-- The argument lists of the dump-tool invocations made, in order. -/
abbrev Trace := List (List String)

/-- Sequencing of two pieces: the second runs only when the first finishes. -/
def andThen (a : Trace × Outcome) (b : Unit → Trace × Outcome) : Trace × Outcome :=
  match a.2 with
  | Outcome.finished => (a.1 ++ (b ()).1, (b ()).2)
  | o => (a.1, o)

/-- `GetTables` (table.go 24-50): `none` is the panic of `checkErr`. -/
def GetTables (rt : Runtime) (hostname username password database : String) :
    Option (List Table) :=
  (rt.Query hostname username password database).map
    (fun rows => rows.map (fun row => NewTable row.1 row.2))

/-- `getTotalRowCount` (main.go 287-294). -/
def getTotalRowCount (tables : List Table) : Int :=
  tables.foldl (fun result table => goAdd result table.RowCount) 0

/-! ## Building the argument lists -/

/-- The three arguments every builder starts with (e.g. main.go 100-102). -/
def commonArgs (options : Options) : List String :=
  ["--defaults-extra-file=" ++ options.DefaultsFile,
   "-h" ++ options.HostName,
   "-u" ++ options.UserName]

/-- The block `if options.AdditionalMySQLDumpArgs != "" { ... }`
(e.g. main.go 108-110). -/
def additionalArgs (options : Options) : List String :=
  if options.AdditionalMySQLDumpArgs ≠ "" then Split options.AdditionalMySQLDumpArgs ' '
  else []

/-- The block `if runtime.GOOS == "windows" { ... }` (e.g. main.go 113-120):
the `-r<filename>` argument; `name` is the part of the file name between the
database name and the time stamp. -/
def outputFileArgs (rt : Runtime) (options : Options) (db name : String) : List String :=
  if rt.GOOS = "windows" then
    let timestamp :=
      Replace (Replace (rt.Format options.ExecutionStartDate "2006-01-02_15:04:05") "-" "") ":" ""
    let filename := rt.Join [options.OutputDirectory, db, db ++ "_" ++ name ++ "_" ++ timestamp ++ ".sql"]
    let filename := Replace filename "/" "\\"
    ["-r" ++ filename]
  else []

/-- The argument list built in one iteration of `generateTableBackup`
(main.go 99-125). -/
def generateTableBackupArgs (rt : Runtime) (options : Options) (db : String) (table : Table)
    (counter index : Int) : List String :=
  commonArgs options
    ++ ["--no-create-db", "--skip-triggers", "--no-create-info"]
    ++ additionalArgs options
    ++ outputFileArgs rt options db (table.TableName ++ fmtInt index)
    ++ ["--where=1=1 LIMIT " ++ fmtInt counter ++ ", " ++ fmtInt options.BatchSize]
    ++ [db]
    ++ [table.TableName]

/-- The argument list of `generateSchemaBackup` (main.go 153-173). -/
def generateSchemaBackupArgs (rt : Runtime) (options : Options) (db : String) : List String :=
  commonArgs options
    ++ ["--no-data"]
    ++ additionalArgs options
    ++ outputFileArgs rt options db "SCHEMA"
    ++ [db]

/-- The argument list of `generateSingleFileDataBackup` (main.go 199-221). -/
def generateSingleFileDataBackupArgs (rt : Runtime) (options : Options) (db : String) :
    List String :=
  commonArgs options
    ++ ["--no-create-db", "--skip-triggers", "--no-create-info"]
    ++ additionalArgs options
    ++ outputFileArgs rt options db "DATA"
    ++ [db]

/-- The argument list of `generateSingleFileBackup` (main.go 247-264). -/
def generateSingleFileBackupArgs (rt : Runtime) (options : Options) (db : String) :
    List String :=
  commonArgs options
    ++ additionalArgs options
    ++ outputFileArgs rt options db "ALL"
    ++ [db]

/-! ## Running the tool -/

/-- The common tail of the four functions (e.g. main.go 127-142): start the
tool, read both streams, and `os.Exit(4)` when the error stream is not empty.
The errors of `Start` and `Wait` are discarded. -/
def runCommand (tool : Tool) (args : List String) : Outcome :=
  if (tool args).stderr ≠ "" then Outcome.exited 4
  else Outcome.finished

/-- The `for` loop of `generateTableBackup` (main.go 96-145), from the current
values of `counter` and `index`. -/
def generateTableBackupLoop (rt : Runtime) (tool : Tool) (options : Options) (db : String)
    (table : Table) : Nat → Int → Int → Trace × Outcome
  | 0, _, _ => ([], Outcome.outOfFuel)
  | fuel + 1, counter, index =>
    if counter ≤ table.RowCount then
      let args := generateTableBackupArgs rt options db table counter index
      match runCommand tool args with
      | Outcome.finished =>
        let rest := generateTableBackupLoop rt tool options db table fuel
          (goAdd counter options.BatchSize) (goAdd index 1)
        (args :: rest.1, rest.2)
      | o => ([args], o)
    else ([], Outcome.finished)

/-- `generateTableBackup` (main.go 93-148). -/
def generateTableBackup (rt : Runtime) (tool : Tool) (options : Options) (db : String)
    (table : Table) (fuel : Nat) : Trace × Outcome :=
  generateTableBackupLoop rt tool options db table fuel 0 1

/-- `generateSchemaBackup` (main.go 150-194). -/
def generateSchemaBackup (rt : Runtime) (tool : Tool) (options : Options) (db : String) :
    Trace × Outcome :=
  ([generateSchemaBackupArgs rt options db],
    runCommand tool (generateSchemaBackupArgs rt options db))

/-- `generateSingleFileDataBackup` (main.go 196-242). -/
def generateSingleFileDataBackup (rt : Runtime) (tool : Tool) (options : Options)
    (db : String) : Trace × Outcome :=
  ([generateSingleFileDataBackupArgs rt options db],
    runCommand tool (generateSingleFileDataBackupArgs rt options db))

/-- `generateSingleFileBackup` (main.go 244-285). -/
def generateSingleFileBackup (rt : Runtime) (tool : Tool) (options : Options) (db : String) :
    Trace × Outcome :=
  ([generateSingleFileBackupArgs rt options db],
    runCommand tool (generateSingleFileBackupArgs rt options db))

/-! ## `main` -/

/-- The three bodies of the `if` chain of main.go 42-62. -/
inductive Branch where
  /-- `generateSingleFileBackup` only. -/
  | Whole
  /-- `generateSchemaBackup`, then `generateSingleFileDataBackup`. -/
  | SchemaPlusData
  /-- `generateSchemaBackup`, then `generateTableBackup` for each table. -/
  | SchemaPlusPerTableBatches
  deriving DecidableEq, Repr

/-- The conditions of the `if` / `else if` / `else if` chain of main.go 42-62,
in their order; `none` is the case in which no condition holds. -/
def mainBranch (forceSplit : Bool) (totalRowCount databaseRowCountTreshold : Int) :
    Option Branch :=
  if !forceSplit && decide (totalRowCount ≤ databaseRowCountTreshold) then
    some Branch.Whole
  else if forceSplit && decide (totalRowCount ≤ databaseRowCountTreshold) then
    some Branch.SchemaPlusData
  else if totalRowCount > databaseRowCountTreshold then
    some Branch.SchemaPlusPerTableBatches
  else none

/-- The loop `for _, table := range tables` of main.go 59-61. -/
def tablesLoop (rt : Runtime) (tool : Tool) (options : Options) (db : String) (fuel : Nat) :
    List Table → Trace × Outcome
  | [] => ([], Outcome.finished)
  | table :: rest =>
    andThen (generateTableBackup rt tool options db table fuel)
      (fun _ => tablesLoop rt tool options db fuel rest)

/-- The body of the loop over the databases once the tables are known
(main.go 40-62). -/
def processDatabase (rt : Runtime) (tool : Tool) (options : Options) (fuel : Nat)
    (db : String) (tables : List Table) : Trace × Outcome :=
  match mainBranch options.ForceSplit (getTotalRowCount tables)
      options.DatabaseRowCountTreshold with
  | some Branch.Whole => generateSingleFileBackup rt tool options db
  | some Branch.SchemaPlusData =>
    andThen (generateSchemaBackup rt tool options db)
      (fun _ => generateSingleFileDataBackup rt tool options db)
  | some Branch.SchemaPlusPerTableBatches =>
    andThen (generateSchemaBackup rt tool options db)
      (fun _ => tablesLoop rt tool options db fuel tables)
  | none => ([], Outcome.finished)

/-- The loop `for _, db := range options.Databases` of main.go 36-65. -/
def mainLoop (rt : Runtime) (tool : Tool) (options : Options) (fuel : Nat) :
    List String → Trace × Outcome
  | [] => ([], Outcome.finished)
  | db :: rest =>
    match GetTables rt options.HostName options.UserName options.Password db with
    | none => ([], Outcome.panicked)
    | some tables =>
      andThen (processDatabase rt tool options fuel db tables)
        (fun _ => mainLoop rt tool options fuel rest)

/-- `createPwdFile` (main.go 72-91). -/
def createPwdFile (rt : Runtime) (options : Options) : Outcome :=
  if rt.OpenFileFails options.DefaultsFile then Outcome.exited 2
  else if rt.WriteStringFails options.DefaultsFile
      ("[mysqldump]\nuser=" ++ options.UserName ++ "\npassword=" ++ options.Password) then
    Outcome.exited 3
  else Outcome.finished

/-- The command-line flags after `flag.Parse()` (main.go 298-340). -/
structure Flags where
  hostname : String := "localhost"
  username : String := ""
  password : String := ""
  databases : String := ""
  dbthreshold : Int := 10000000
  tablethreshold : Int := 5000000
  batchsize : Int := 1000000
  forcesplit : Bool := false
  additionals : String := ""
  verbosity : Int := 2
  mysqldumppath : String := ""
  outputdir : String := ""
  defaultsFile : String := ""
  test : Bool := false

/-- The fixed argument list of the `test` branch of `GetOptions`
(main.go 381-397). -/
def testArgs : List String :=
  ["--defaults-extra-file=\"E:\\Temp\\New Folder\\pwd.cnf\"",
   "-h\"10.2.1.181\"",
   "-u\"selman\"",
   "--no-create-db",
   "--skip-triggers",
   "--no-create-info",
   "--single-transaction",
   "--skip-extended-insert",
   "--quick",
   "--skip-add-locks",
   "--default-character-set=utf8",
   "--compress",
   "E:\\Temp\\New Folder\\ftacs\\ftacs_cpe_parameter2_20170622_080021.sql",
   "--where=\"1=1 LIMIT 1000000, 1000000\"",
   "ftacs",
   "cpe_parameter"]

/-- The value of `mysqldumppath` after the `switch runtime.GOOS` of
main.go 342-349. -/
def defaultDumpPath (rt : Runtime) (flags : Flags) : String :=
  if flags.mysqldumppath = "" then
    if rt.GOOS = "windows" then "c:\\tools\\mysql\\current\\bin\\mysqldump.exe"
    else if rt.GOOS = "linux" then "/usr/bin/mysqldump"
    else flags.mysqldumppath
  else flags.mysqldumppath

/-- `GetOptions` (main.go 297-418) after flag parsing: the invocations made
(only in the `test` branch) and either the exit code or the options. -/
def GetOptions (rt : Runtime) (flags : Flags) : Trace × Except Nat Options :=
  let mysqldumppath := defaultDumpPath rt flags
  let outputdir := if flags.outputdir = "" then rt.Getwd else flags.outputdir
  let defaultsProvidedByUser := !decide (flags.defaultsFile = "")
  let defaultsFile :=
    if flags.defaultsFile = "" then
      if rt.GOOS = "windows" then Replace (rt.Join [outputdir, "pwd.cnf"]) "/" "\\"
      else rt.Join [outputdir, "pwd.cnf"]
    else flags.defaultsFile
  if rt.IsNotExist mysqldumppath then ([], Except.error 1)
  else
    let opts := NewOptions rt.Now flags.hostname flags.username flags.password flags.databases
      flags.dbthreshold flags.tablethreshold flags.batchsize flags.forcesplit flags.additionals
      flags.verbosity mysqldumppath outputdir defaultsFile defaultsProvidedByUser
    if flags.test then ([testArgs], Except.error 4)
    else ([], Except.ok opts)

/-- `main` (main.go 29-70). Returning from `main` ends the process with exit
code 0. -/
def main (rt : Runtime) (tool : Tool) (flags : Flags) (fuel : Nat) : Trace × Outcome :=
  match GetOptions rt flags with
  | (trace, Except.error code) => (trace, Outcome.exited code)
  | (_, Except.ok options) =>
    andThen
      (if !options.DefaultsProvidedByUser then ([], createPwdFile rt options)
       else ([], Outcome.finished))
      (fun _ => andThen (mainLoop rt tool options fuel options.Databases)
        (fun _ => ([], Outcome.exited 0)))

/-- The exit status of the process, when it ends: Go ends a panicking process
with status 2. -/
def exitCode : Outcome → Option Nat
  | Outcome.finished => some 0
  | Outcome.exited code => some code
  | Outcome.panicked => some 2
  | Outcome.outOfFuel => none

/-! ## The loop header and the window lists -/

/-- The header of the `for` loop of `generateTableBackup` on its own
(main.go 97): the values of `counter` at which the body runs, in order, from
the current value of `counter`. -/
def batchOffsets (rowCount batchSize : Int) : Nat → Int → List Int × Outcome
  | 0, _ => ([], Outcome.outOfFuel)
  | fuel + 1, counter =>
    if counter ≤ rowCount then
      let rest := batchOffsets rowCount batchSize fuel (goAdd counter batchSize)
      (counter :: rest.1, rest.2)
    else ([], Outcome.finished)

/-- The argument lists built for the given values of `counter`, with `index`
incremented from one iteration to the next (main.go 96, 144). -/
def windowArgs (rt : Runtime) (options : Options) (db : String) (table : Table) :
    List Int → Int → Trace
  | [], _ => []
  | counter :: rest, index =>
    generateTableBackupArgs rt options db table counter index
      :: windowArgs rt options db table rest (goAdd index 1)

/-- The number of windows of a table: `floor(rowCount / batchSize) + 1`. -/
def windowCount (rowCount batchSize : Int) : Nat := (rowCount / batchSize).toNat + 1

/-! ## Specification-side definitions -/

/-- The input with every occurrence of an element after its first deleted. -/
def firstOccurrences : List String → List String
  | [] => []
  | x :: xs => x :: (firstOccurrences xs).filter (fun y => decide (y ≠ x))

/-- The sum of the row counts as a mathematical integer. -/
def rowCountSum (tables : List Table) : Int :=
  (tables.map (fun table => table.RowCount)).sum

/-- The string with every space character (U+0020) deleted. -/
def removeSpaces (s : String) : String :=
  String.mk (s.data.filter (fun c => decide (c ≠ ' ')))

/-- The string without its leading and trailing whitespace. -/
def trimWhitespace (s : String) : String :=
  String.mk ((s.data.dropWhile Char.isWhitespace).reverse.dropWhile Char.isWhitespace).reverse

/-- The comma-separated items of the input, each trimmed of its leading and
trailing whitespace. -/
def trimmedItems (databases : String) : List String :=
  (Split databases ',').map trimWhitespace

/-- Whether the tool writes to its error stream on these arguments. -/
def failsOn (tool : Tool) (args : List String) : Bool :=
  decide ((tool args).stderr ≠ "")

/-- A tool that starts and writes nothing to its error stream. -/
def okTool : Tool := fun _ => { stdout := "", stderr := "", started := true }

/-- A sequence of invocations, with the way it ends, cut after the first
invocation on which the tool fails; the run then ends with exit code 4. -/
def stopAtFirstFailure (fails : List String → Bool) : Trace → Outcome → Trace × Outcome
  | [], o => ([], o)
  | a :: rest, o =>
    if fails a then ([a], Outcome.exited 4)
    else (a :: (stopAtFirstFailure fails rest o).1, (stopAtFirstFailure fails rest o).2)

/-- The windows start at 0 and each starts where the one before it ends. -/
def Consecutive (batchSize : Int) (offsets : List Int) : Prop :=
  offsets.head? = some 0 ∧ List.Chain' (fun c d => d = c + batchSize) offsets

/-- No two of the windows `[c, c + batchSize)` share a position. -/
def NonOverlapping (batchSize : Int) (offsets : List Int) : Prop :=
  offsets.Pairwise (fun c d => c + batchSize ≤ d ∨ d + batchSize ≤ c)

/-- Every position from 0 to `rowCount` lies in exactly one of the windows
(counted by their place in the sequence). -/
def CoversOnce (rowCount batchSize : Int) (offsets : List Int) : Prop :=
  ∀ pos : Int, 0 ≤ pos → pos ≤ rowCount →
    ∃! k : Nat, ∃ c : Int, offsets[k]? = some c ∧ c ≤ pos ∧ pos < c + batchSize

/-- The invocations of one table when nothing fails and nothing overflows: one
per window, the window of place `k` (from 0) at offset `k * batchSize`. -/
def tableWindows (rt : Runtime) (options : Options) (db : String) (table : Table) : Trace :=
  (List.range (windowCount table.RowCount options.BatchSize)).map (fun (k : Nat) =>
    generateTableBackupArgs rt options db table ((k : Int) * options.BatchSize) ((k : Int) + 1))

/-! ## Concrete inputs used in the examples -/

/-- A Linux platform whose catalog holds the given rows for every database and
on which every file-system call succeeds; `path.Join` is taken on clean
path elements, where it only puts `/` between them. -/
def sampleRuntime (rows : List (String × Int)) : Runtime :=
  { GOOS := "linux"
    Join := fun parts => String.intercalate "/" parts
    Format := fun _ _ => "2017-06-22_08:00:21"
    Now := 0
    Getwd := "/backup"
    IsNotExist := fun _ => false
    OpenFileFails := fun _ => false
    WriteStringFails := fun _ _ => false
    Query := fun _ _ _ _ => some rows }

/-- Options with the default thresholds, the given batch size and additional
arguments, for the database `shop`. -/
def sampleOptions (batchSize : Int) (additionals : String) : Options :=
  NewOptions 0 "localhost" "root" "secret" "shop" 10000000 5000000 batchSize false additionals 2
    "/usr/bin/mysqldump" "/backup" "/backup/pwd.cnf" true

/-- A tool whose process can never be started: both streams stay empty. -/
def notStartedTool : Tool := fun _ => { stdout := "", stderr := "", started := false }

/-! ## Lemmas on Go integers -/

theorem wrapInt_of_range (x : Int) (h1 : minInt ≤ x) (h2 : x ≤ maxInt) : wrapInt x = x := by
  unfold wrapInt minInt maxInt at *
  omega

theorem wrapInt_range (x : Int) : minInt ≤ wrapInt x ∧ wrapInt x ≤ maxInt := by
  unfold wrapInt minInt maxInt
  omega

theorem wrapInt_add_left (a x : Int) : wrapInt (wrapInt a + x) = wrapInt (a + x) := by
  unfold wrapInt
  omega

theorem foldl_goAdd (tables : List Table) (a : Int) :
    tables.foldl (fun result table => goAdd result table.RowCount) (wrapInt a)
      = wrapInt (a + rowCountSum tables) := by
  induction tables generalizing a with
  | nil => simp [rowCountSum]
  | cons t ts ih =>
    have hstep : goAdd (wrapInt a) t.RowCount = wrapInt (a + t.RowCount) := by
      simp only [goAdd, wrapInt_add_left]
    rw [List.foldl_cons, hstep, ih]
    simp [rowCountSum, add_assoc]

theorem getTotalRowCount_eq_wrap (tables : List Table) :
    getTotalRowCount tables = wrapInt (rowCountSum tables) := by
  have h := foldl_goAdd tables 0
  have h0 : wrapInt 0 = 0 := by decide
  rw [h0] at h
  simpa [getTotalRowCount] using h

/-! ## Lemmas on `removeDuplicates` -/

theorem removeDuplicatesLoop_eq (es encountered result : List String) :
    removeDuplicatesLoop es encountered result
      = result ++ (firstOccurrences es).filter (fun y => decide (y ∉ encountered)) := by
  induction es generalizing encountered result with
  | nil => simp [removeDuplicatesLoop, firstOccurrences]
  | cons e es ih =>
    unfold removeDuplicatesLoop
    by_cases he : e ∈ encountered
    · simp only [he, if_true, firstOccurrences]
      rw [ih]
      congr 1
      rw [List.filter_cons]
      simp only [he, not_true_eq_false, decide_False, Bool.false_eq_true, if_false,
        List.filter_filter]
      apply List.filter_congr
      intro y _
      by_cases hy : y ∈ encountered
      · simp [hy]
      · have : y ≠ e := fun h => hy (h ▸ he)
        simp [hy, this]
    · simp only [he, if_false, firstOccurrences]
      rw [ih]
      rw [List.filter_cons]
      simp only [he, not_false_eq_true, decide_True, if_true, List.filter_filter,
        List.append_assoc, List.singleton_append]
      congr 2
      apply List.filter_congr
      intro y _
      by_cases hy : y = e
      · simp [hy]
      · by_cases hy2 : y ∈ encountered
        · simp [hy, hy2]
        · simp [hy, hy2]

theorem removeDuplicates_eq_firstOccurrences (elements : List String) :
    removeDuplicates elements = firstOccurrences elements := by
  simp [removeDuplicates, removeDuplicatesLoop_eq]

theorem mem_firstOccurrences (elements : List String) (x : String) :
    x ∈ firstOccurrences elements ↔ x ∈ elements := by
  induction elements with
  | nil => simp [firstOccurrences]
  | cons e es ih =>
    simp only [firstOccurrences, List.mem_cons, List.mem_filter, ih]
    by_cases h : x = e
    · simp [h]
    · simp [h]

theorem nodup_firstOccurrences (elements : List String) :
    (firstOccurrences elements).Nodup := by
  induction elements with
  | nil => simp [firstOccurrences]
  | cons e es ih =>
    simp only [firstOccurrences, List.nodup_cons, List.mem_filter]
    refine ⟨by simp, ih.filter _⟩

theorem sublist_firstOccurrences (elements : List String) :
    (firstOccurrences elements).Sublist elements := by
  induction elements with
  | nil => simp [firstOccurrences]
  | cons e es ih =>
    simp only [firstOccurrences]
    exact ((List.filter_sublist _).trans ih).cons₂ e

theorem pairwise_firstOccurrences (elements : List String) :
    (firstOccurrences elements).Pairwise
      (fun x y => elements.indexOf x < elements.indexOf y) := by
  induction elements with
  | nil => simp [firstOccurrences]
  | cons e es ih =>
    simp only [firstOccurrences, List.pairwise_cons, List.mem_filter]
    constructor
    · intro y hy
      have hne : y ≠ e := by simpa using hy.2
      rw [List.indexOf_cons_self, List.indexOf_cons_ne _ (Ne.symm hne)]
      exact Nat.succ_pos _
    · have h1 : ((firstOccurrences es).filter (fun y => decide (y ≠ e))).Pairwise
          (fun x y => es.indexOf x < es.indexOf y) := ih.filter _
      refine (List.Pairwise.and_mem.1 h1).imp ?_
      intro x y hxy
      obtain ⟨hx, hy, hlt⟩ := hxy
      have hxe : x ≠ e := by simpa using (List.mem_filter.1 hx).2
      have hye : y ≠ e := by simpa using (List.mem_filter.1 hy).2
      rw [List.indexOf_cons_ne _ (Ne.symm hxe), List.indexOf_cons_ne _ (Ne.symm hye)]
      exact Nat.succ_lt_succ hlt

/-! ## Lemmas on the string functions -/

theorem replaceChars_single_nil (c : Char) (s : List Char) :
    replaceChars [c] [] 0 s = s.filter (fun d => decide (d ≠ c)) := by
  induction s with
  | nil => simp [replaceChars]
  | cons d ds ih =>
    by_cases h : d = c
    · subst h
      simp [replaceChars, List.isPrefixOf, ih]
    · have h2 : ¬ c = d := fun e => h e.symm
      simp [replaceChars, List.isPrefixOf, ih, h, h2]

theorem isPrefixOf_false_of_not_mem (old l : List Char) (c : Char) (hc : c ∈ old)
    (hl : c ∉ l) : old.isPrefixOf l = false := by
  cases h : old.isPrefixOf l with
  | false => rfl
  | true =>
    exfalso
    have hp : old <+: l := List.isPrefixOf_iff_prefix.1 h
    exact hl (hp.subset hc)

theorem replaceChars_noop (old new s : List Char) (c : Char) (hc : c ∈ old) (hs : c ∉ s) :
    replaceChars old new 0 s = s := by
  induction s with
  | nil => simp [replaceChars]
  | cons d ds ih =>
    have hds : c ∉ ds := fun h => hs (List.mem_cons_of_mem _ h)
    simp [replaceChars, isPrefixOf_false_of_not_mem old (d :: ds) c hc hs, ih hds]

theorem splitChars_ne_nil (sep : Char) (s : List Char) : splitChars sep s ≠ [] := by
  cases s with
  | nil => simp [splitChars]
  | cons d ds =>
    unfold splitChars
    split
    · simp
    · split <;> simp

theorem splitChars_filter (sep c : Char) (hne : sep ≠ c) (s : List Char) :
    splitChars sep (s.filter (fun d => decide (d ≠ c)))
      = (splitChars sep s).map (fun w => w.filter (fun d => decide (d ≠ c))) := by
  induction s with
  | nil => simp [splitChars]
  | cons d ds ih =>
    by_cases hd : d = sep
    · subst hd
      rw [List.filter_cons]
      simp only [ne_eq, hne, not_false_eq_true, decide_True, if_true]
      simp only [splitChars, if_true]
      rw [ih]
      simp
    · by_cases hc : d = c
      · subst hc
        rw [List.filter_cons]
        simp only [ne_eq, not_true_eq_false, decide_False, Bool.false_eq_true, if_false]
        rw [ih]
        simp only [splitChars, hd, if_false]
        cases hsp : splitChars sep ds with
        | nil => exact absurd hsp (splitChars_ne_nil sep ds)
        | cons w ws => simp
      · rw [List.filter_cons]
        simp only [ne_eq, hc, not_false_eq_true, decide_True, if_true]
        simp only [splitChars, hd, if_false]
        rw [ih]
        cases hsp : splitChars sep ds with
        | nil => exact absurd hsp (splitChars_ne_nil sep ds)
        | cons w ws => simp [hc]

theorem splitDatabases_eq (databases : String) :
    splitDatabases databases = (Split databases ',').map removeSpaces := by
  have hfilter : ' ' ∉ databases.data.filter (fun d => decide (d ≠ ' ')) := by
    simp [List.mem_filter]
  have h1 : Replace databases " " "" = removeSpaces databases := by
    simp only [Replace, removeSpaces]
    exact congrArg String.mk (replaceChars_single_nil ' ' databases.data)
  have hno : ∀ old new : String, ' ' ∈ old.data →
      Replace (removeSpaces databases) old new = removeSpaces databases := by
    intro old new hmem
    simp only [Replace, removeSpaces]
    exact congrArg String.mk (replaceChars_noop old.data new.data _ ' ' hmem hfilter)
  have h2 := hno " , " "," (by decide)
  have h3 := hno ", " "," (by decide)
  have h4 := hno " ," "," (by decide)
  have h5 : splitDatabases databases = Split (removeSpaces databases) ',' := by
    show Split (Replace (Replace (Replace (Replace databases " " "") " , " ",") ", " ",")
      " ," ",") ',' = _
    rw [h1, h2, h3, h4]
  rw [h5]
  simp only [Split, removeSpaces]
  rw [splitChars_filter ',' ' ' (by decide), List.map_map, List.map_map]
  rfl

/-! ## Lemmas on the batch loop -/

theorem runCommand_ok (tool : Tool)
    (hok : ∀ args, (tool args).stderr = "") (args : List String) :
    runCommand tool args = Outcome.finished := by
  simp [runCommand, hok args]

/-- With a tool that never writes to its error stream, the loop of
`generateTableBackup` runs its body at the counters of `batchOffsets`. -/
theorem generateTableBackupLoop_ok (rt : Runtime) (tool : Tool) (options : Options)
    (db : String) (table : Table)
    (hok : ∀ args, (tool args).stderr = "") :
    ∀ (fuel : Nat) (counter index : Int),
      generateTableBackupLoop rt tool options db table fuel counter index
        = (windowArgs rt options db table
            (batchOffsets table.RowCount options.BatchSize fuel counter).1 index,
           (batchOffsets table.RowCount options.BatchSize fuel counter).2) := by
  intro fuel
  induction fuel with
  | zero => intro counter index; simp [generateTableBackupLoop, batchOffsets, windowArgs]
  | succ fuel ih =>
    intro counter index
    unfold generateTableBackupLoop batchOffsets
    by_cases hc : counter ≤ table.RowCount
    · simp only [hc, if_true, runCommand_ok tool hok, ih, windowArgs]
    · simp only [hc, if_false, windowArgs]

theorem mul_bounds (r b : Int) (hb : 0 < b) (k : Int) (hk0 : 0 ≤ k)
    (hk : k ≤ r / b) : k * b ≤ r ∧ 0 ≤ k * b ∧ (k + 1) * b ≤ (r / b + 1) * b := by
  have h1 : r / b * b ≤ r := Int.ediv_mul_le r (ne_of_gt hb)
  have h2 : k * b ≤ r / b * b := Int.mul_le_mul_of_nonneg_right hk (le_of_lt hb)
  have h3 : (k + 1) * b ≤ (r / b + 1) * b :=
    Int.mul_le_mul_of_nonneg_right (by omega) (le_of_lt hb)
  exact ⟨le_trans h2 h1, Int.mul_nonneg hk0 (le_of_lt hb), h3⟩

/-- Closed form of `batchOffsets` when the counter cannot overflow. -/
theorem batchOffsets_closed (r b : Int) (hb : 0 < b)
    (hbound : (r / b + 1) * b ≤ maxInt) :
    ∀ (m k fuel : Nat), (k : Int) + m = r / b + 1 → m < fuel →
      batchOffsets r b fuel ((k : Int) * b)
        = ((List.range m).map (fun i => (((k + i : Nat) : Int)) * b), Outcome.finished) := by
  intro m
  induction m with
  | zero =>
    intro k fuel hk hfuel
    obtain ⟨f, rfl⟩ : ∃ f, fuel = f + 1 := ⟨fuel - 1, by omega⟩
    have hlt : r < (r / b + 1) * b := Int.lt_ediv_add_one_mul_self r hb
    have hk2 : (k : Int) = r / b + 1 := by simpa using hk
    have hc : ¬ ((k : Int) * b ≤ r) := by rw [hk2]; omega
    simp [batchOffsets, hc]
  | succ m ih =>
    intro k fuel hk hfuel
    obtain ⟨f, rfl⟩ : ∃ f, fuel = f + 1 := ⟨fuel - 1, by omega⟩
    have hkq : (k : Int) ≤ r / b := by push_cast at hk; omega
    obtain ⟨h1, h2, h3⟩ := mul_bounds r b hb k (by omega) hkq
    have hnext : goAdd ((k : Int) * b) b = ((k + 1 : Nat) : Int) * b := by
      have e : (k : Int) * b + b = ((k : Int) + 1) * b := by ring
      unfold goAdd
      rw [e, wrapInt_of_range]
      · push_cast; rfl
      · have : 0 ≤ ((k : Int) + 1) * b := Int.mul_nonneg (by omega) (le_of_lt hb)
        unfold minInt; omega
      · exact le_trans h3 hbound
    have hih := ih (k + 1) f (by push_cast at hk ⊢; omega) (by omega)
    unfold batchOffsets
    simp only [h1, if_true, hnext, hih, List.range_succ_eq_map, List.map_cons, List.map_map]
    simp only [Nat.add_zero, Prod.mk.injEq, List.cons.injEq, true_and, and_true]
    apply List.map_congr_left
    intro i _
    simp only [Function.comp, Nat.succ_eq_add_one]
    congr 2
    omega

/-- Closed form of `windowArgs` when the index cannot overflow. -/
theorem windowArgs_closed (rt : Runtime) (options : Options) (db : String) (table : Table)
    (f : Nat → Int) :
    ∀ (m k : Nat), ((k : Int) + m ≤ maxInt) →
      windowArgs rt options db table ((List.range m).map (fun i => f (k + i))) ((k : Int) + 1)
        = (List.range m).map (fun i =>
            generateTableBackupArgs rt options db table (f (k + i)) (((k + i : Nat) : Int) + 1)) := by
  intro m
  induction m with
  | zero => intro k _; simp [windowArgs]
  | succ m ih =>
    intro k hk
    simp only [List.range_succ_eq_map, List.map_cons, List.map_map, windowArgs]
    simp only [Nat.add_zero, List.cons.injEq, true_and]
    cases m with
    | zero => simp [windowArgs]
    | succ m =>
      have hnext : goAdd ((k : Int) + 1) 1 = ((k + 1 : Nat) : Int) + 1 := by
        unfold goAdd
        rw [wrapInt_of_range]
        · push_cast; rfl
        · unfold minInt; omega
        · unfold maxInt at *; push_cast at hk; omega
      have hih := ih (k + 1) (by push_cast at hk ⊢; omega)
      have e : ∀ i, k + 1 + i = k + (i + 1) := by intro i; omega
      simp only [e] at hih
      rw [hnext]
      simpa [List.range_succ_eq_map, List.map_map, Function.comp_def] using hih

theorem windowCount_cast (r b : Int) (hr : 0 ≤ r) (hb : 0 < b) :
    ((windowCount r b : Nat) : Int) = r / b + 1 := by
  have hq : 0 ≤ r / b := Int.ediv_nonneg hr (le_of_lt hb)
  unfold windowCount
  push_cast
  rw [Int.toNat_of_nonneg hq]

/-- With a tool that never writes to its error stream and a counter that
cannot overflow, `generateTableBackup` makes one invocation per window and
finishes, given more fuel than windows. -/
theorem generateTableBackup_closed (rt : Runtime) (tool : Tool) (options : Options)
    (db : String) (table : Table) (fuel : Nat)
    (hok : ∀ args, (tool args).stderr = "")
    (hr : 0 ≤ table.RowCount) (hb : 0 < options.BatchSize)
    (hbound : (table.RowCount / options.BatchSize + 1) * options.BatchSize ≤ maxInt)
    (hfuel : windowCount table.RowCount options.BatchSize < fuel) :
    generateTableBackup rt tool options db table fuel
      = (tableWindows rt options db table, Outcome.finished) := by
  unfold tableWindows
  have hcast := windowCount_cast table.RowCount options.BatchSize hr hb
  have hoff := batchOffsets_closed table.RowCount options.BatchSize hb hbound
    (windowCount table.RowCount options.BatchSize) 0 fuel (by rw [hcast]; simp) hfuel
  have hle : ((0 : Nat) : Int) + (windowCount table.RowCount options.BatchSize : Nat) ≤ maxInt := by
    have h1 : (1 : Int) * (table.RowCount / options.BatchSize + 1)
        ≤ options.BatchSize * (table.RowCount / options.BatchSize + 1) :=
      Int.mul_le_mul_of_nonneg_right (by omega)
        (by have := Int.ediv_nonneg hr (le_of_lt hb); omega)
    rw [hcast]
    rw [Int.mul_comm] at hbound
    simp only [Nat.cast_zero, zero_add]
    omega
  have hargs := windowArgs_closed rt options db table (fun i => (i : Int) * options.BatchSize)
    (windowCount table.RowCount options.BatchSize) 0 hle
  have h0 : generateTableBackup rt tool options db table fuel
      = generateTableBackupLoop rt tool options db table fuel (((0 : Nat) : Int) * options.BatchSize)
          (((0 : Nat) : Int) + 1) := by
    simp [generateTableBackup]
  simp only [Nat.zero_add] at hargs hoff
  rw [h0, generateTableBackupLoop_ok rt tool options db table hok, hoff]
  simp only [hargs]

/-! ## Lemmas on sequencing and on the loops over tables and databases -/

theorem andThen_finished (tr : Trace) (b : Unit → Trace × Outcome) :
    andThen (tr, Outcome.finished) b = (tr ++ (b ()).1, (b ()).2) := rfl

theorem andThen_cons (a : List String) (x : Trace × Outcome) (b : Unit → Trace × Outcome) :
    andThen (a :: x.1, x.2) b = (a :: (andThen x b).1, (andThen x b).2) := by
  obtain ⟨tr, o⟩ := x
  cases o <;> rfl

theorem tablesLoop_closed (rt : Runtime) (tool : Tool) (options : Options) (db : String)
    (fuel : Nat) (hok : ∀ args, (tool args).stderr = "") (hb : 0 < options.BatchSize)
    (tables : List Table)
    (htables : ∀ t ∈ tables, 0 ≤ t.RowCount
      ∧ (t.RowCount / options.BatchSize + 1) * options.BatchSize ≤ maxInt
      ∧ windowCount t.RowCount options.BatchSize < fuel) :
    tablesLoop rt tool options db fuel tables
      = ((tables.map (tableWindows rt options db)).flatten, Outcome.finished) := by
  induction tables with
  | nil => simp [tablesLoop]
  | cons t ts ih =>
    obtain ⟨h1, h2, h3⟩ := htables t (List.mem_cons_self _ _)
    have hts := ih (fun u hu => htables u (List.mem_cons_of_mem _ hu))
    unfold tablesLoop
    rw [generateTableBackup_closed rt tool options db t fuel hok h1 hb h2 h3, andThen_finished,
      hts]
    simp

theorem length_tableWindows (rt : Runtime) (options : Options) (db : String) (table : Table) :
    (tableWindows rt options db table).length
      = windowCount table.RowCount options.BatchSize := by
  simp [tableWindows]

theorem length_flatten_tableWindows (rt : Runtime) (options : Options) (db : String)
    (tables : List Table) :
    ((tables.map (tableWindows rt options db)).flatten).length
      = (tables.map (fun t => windowCount t.RowCount options.BatchSize)).sum := by
  induction tables with
  | nil => simp
  | cons t ts ih => simp [length_tableWindows, ih]

/-! ## Lemmas on `stopAtFirstFailure` -/

theorem stop_andThen (fails : List String → Bool) (tr : Trace) (o : Outcome)
    (b : Unit → Trace × Outcome) :
    stopAtFirstFailure fails (andThen (tr, o) b).1 (andThen (tr, o) b).2
      = andThen (stopAtFirstFailure fails tr o)
          (fun _ => stopAtFirstFailure fails (b ()).1 (b ()).2) := by
  induction tr with
  | nil => cases o <;> simp [andThen, stopAtFirstFailure]
  | cons a rest ih =>
    by_cases hf : fails a = true
    · cases o <;> simp [andThen, stopAtFirstFailure, hf]
    · have hcons : andThen (a :: rest, o) b
          = (a :: (andThen (rest, o) b).1, (andThen (rest, o) b).2) :=
        andThen_cons a (rest, o) b
      rw [hcons]
      simp only [stopAtFirstFailure, hf, if_false, Bool.false_eq_true]
      rw [ih]
      exact (andThen_cons a (stopAtFirstFailure fails rest o) _).symm

theorem stop_of_no_failure (fails : List String → Bool) (tr : Trace) (o : Outcome)
    (h : ∀ x ∈ tr, fails x = false) : stopAtFirstFailure fails tr o = (tr, o) := by
  induction tr with
  | nil => rfl
  | cons a rest ih =>
    have ha := h a (List.mem_cons_self _ _)
    have hrest := ih (fun x hx => h x (List.mem_cons_of_mem _ hx))
    simp [stopAtFirstFailure, ha, hrest]

theorem stop_at_failure (fails : List String → Bool) (pre post : Trace) (a : List String)
    (o : Outcome) (hpre : ∀ x ∈ pre, fails x = false) (ha : fails a = true) :
    stopAtFirstFailure fails (pre ++ a :: post) o = (pre ++ [a], Outcome.exited 4) := by
  induction pre with
  | nil => simp [stopAtFirstFailure, ha]
  | cons p rest ih =>
    have hp := hpre p (List.mem_cons_self _ _)
    have hrest := ih (fun x hx => hpre x (List.mem_cons_of_mem _ hx))
    simp [stopAtFirstFailure, hp, hrest]

theorem runCommand_okTool (args : List String) : runCommand okTool args = Outcome.finished := by
  simp [runCommand, okTool]

theorem stop_single (tool : Tool) (args : List String) :
    ([args], runCommand tool args)
      = stopAtFirstFailure (failsOn tool) [args] (runCommand okTool args) := by
  by_cases h : (tool args).stderr = ""
  · simp [stopAtFirstFailure, failsOn, runCommand, h, okTool]
  · simp [stopAtFirstFailure, failsOn, runCommand, h]

theorem generateTableBackupLoop_stop (rt : Runtime) (tool : Tool) (options : Options)
    (db : String) (table : Table) :
    ∀ (fuel : Nat) (counter index : Int),
      generateTableBackupLoop rt tool options db table fuel counter index
        = stopAtFirstFailure (failsOn tool)
            (generateTableBackupLoop rt okTool options db table fuel counter index).1
            (generateTableBackupLoop rt okTool options db table fuel counter index).2 := by
  intro fuel
  induction fuel with
  | zero => intro counter index; simp [generateTableBackupLoop, stopAtFirstFailure]
  | succ fuel ih =>
    intro counter index
    unfold generateTableBackupLoop
    by_cases hc : counter ≤ table.RowCount
    · simp only [hc, if_true, runCommand_okTool]
      by_cases h : (tool (generateTableBackupArgs rt options db table counter index)).stderr = ""
      · simp only [runCommand, h, stopAtFirstFailure, failsOn]
        simp only [ne_eq, not_true_eq_false, if_false, decide_False, Bool.false_eq_true]
        rw [ih]
      · simp [runCommand, h, stopAtFirstFailure, failsOn]
    · simp [hc, stopAtFirstFailure]

theorem generateTableBackup_stop (rt : Runtime) (tool : Tool) (options : Options)
    (db : String) (table : Table) (fuel : Nat) :
    generateTableBackup rt tool options db table fuel
      = stopAtFirstFailure (failsOn tool)
          (generateTableBackup rt okTool options db table fuel).1
          (generateTableBackup rt okTool options db table fuel).2 :=
  generateTableBackupLoop_stop rt tool options db table fuel 0 1

theorem tablesLoop_stop (rt : Runtime) (tool : Tool) (options : Options) (db : String)
    (fuel : Nat) (tables : List Table) :
    tablesLoop rt tool options db fuel tables
      = stopAtFirstFailure (failsOn tool) (tablesLoop rt okTool options db fuel tables).1
          (tablesLoop rt okTool options db fuel tables).2 := by
  induction tables with
  | nil => simp [tablesLoop, stopAtFirstFailure]
  | cons t ts ih =>
    unfold tablesLoop
    rw [stop_andThen, ← ih]
    unfold generateTableBackup
    rw [← generateTableBackupLoop_stop]

theorem processDatabase_stop (rt : Runtime) (tool : Tool) (options : Options) (fuel : Nat)
    (db : String) (tables : List Table) :
    processDatabase rt tool options fuel db tables
      = stopAtFirstFailure (failsOn tool) (processDatabase rt okTool options fuel db tables).1
          (processDatabase rt okTool options fuel db tables).2 := by
  unfold processDatabase
  cases mainBranch options.ForceSplit (getTotalRowCount tables)
      options.DatabaseRowCountTreshold with
  | none => simp [stopAtFirstFailure]
  | some br =>
    cases br with
    | Whole => exact stop_single tool _
    | SchemaPlusData =>
      simp only [generateSchemaBackup, generateSingleFileDataBackup]
      rw [stop_andThen, ← stop_single, ← stop_single]
    | SchemaPlusPerTableBatches =>
      simp only [generateSchemaBackup]
      rw [stop_andThen, ← stop_single, ← tablesLoop_stop]

theorem mainLoop_stop (rt : Runtime) (tool : Tool) (options : Options) (fuel : Nat)
    (dbs : List String) :
    mainLoop rt tool options fuel dbs
      = stopAtFirstFailure (failsOn tool) (mainLoop rt okTool options fuel dbs).1
          (mainLoop rt okTool options fuel dbs).2 := by
  induction dbs with
  | nil => simp [mainLoop, stopAtFirstFailure]
  | cons db rest ih =>
    unfold mainLoop
    cases GetTables rt options.HostName options.UserName options.Password db with
    | none => simp [stopAtFirstFailure]
    | some tables =>
      simp only
      rw [stop_andThen, ← ih, ← processDatabase_stop]

/-- The three ways `GetOptions` ends; the batch size plays no part in which. -/
theorem GetOptions_cases (rt : Runtime) (flags : Flags) :
    (rt.IsNotExist (defaultDumpPath rt flags) = true
        ∧ GetOptions rt flags = ([], Except.error 1))
    ∨ (rt.IsNotExist (defaultDumpPath rt flags) = false ∧ flags.test = true
        ∧ GetOptions rt flags = ([testArgs], Except.error 4))
    ∨ (rt.IsNotExist (defaultDumpPath rt flags) = false ∧ flags.test = false
        ∧ ∃ options, GetOptions rt flags = ([], Except.ok options)
          ∧ options.BatchSize = flags.batchsize) := by
  by_cases h1 : rt.IsNotExist (defaultDumpPath rt flags) = true
  · left
    exact ⟨h1, by simp [GetOptions, h1]⟩
  · right
    simp only [Bool.not_eq_true] at h1
    by_cases h2 : flags.test = true
    · left
      exact ⟨h1, h2, by simp [GetOptions, h1, h2]⟩
    · right
      simp only [Bool.not_eq_true] at h2
      refine ⟨h1, h2, ?_⟩
      unfold GetOptions
      simp only [h1, h2, Bool.false_eq_true, if_false]
      exact ⟨_, rfl, rfl⟩

theorem main_stop (rt : Runtime) (tool : Tool) (flags : Flags) (fuel : Nat) :
    main rt tool flags fuel
      = stopAtFirstFailure (failsOn tool) (main rt okTool flags fuel).1
          (main rt okTool flags fuel).2 := by
  unfold main
  rcases GetOptions_cases rt flags with ⟨_, hg⟩ | ⟨_, _, hg⟩ | ⟨_, _, options, hg, _⟩
  · rw [hg]; simp [stopAtFirstFailure]
  · rw [hg]
    by_cases hf : failsOn tool testArgs = true
    · simp [stopAtFirstFailure, hf]
    · simp [stopAtFirstFailure, hf]
  · rw [hg]
    simp only
    rw [stop_andThen, stop_andThen, ← mainLoop_stop]
    by_cases hd : options.DefaultsProvidedByUser = true
    · simp [hd, stopAtFirstFailure]
    · simp only [Bool.not_eq_true] at hd
      simp [hd, stopAtFirstFailure]

/-! ## Lemmas on the window offsets -/

theorem getElem?_offsets (b : Int) (n k : Nat) (c : Int) :
    ((List.range n).map (fun (i : Nat) => (i : Int) * b))[k]? = some c ↔ k < n ∧ c = (k : Int) * b := by
  by_cases hk : k < n
  · simp [List.getElem?_map, List.getElem?_range hk, hk, eq_comm]
  · have hnone : (List.range n)[k]? = none := by
      apply List.getElem?_eq_none
      simp only [List.length_range]
      omega
    simp [List.getElem?_map, hnone, hk]

theorem consecutive_offsets (b : Int) (n : Nat) :
    Consecutive b ((List.range (n + 1)).map (fun (i : Nat) => (i : Int) * b)) := by
  constructor
  · simp [List.range_succ_eq_map]
  · rw [List.chain'_map, List.chain'_range_succ]
    intro m _
    push_cast
    ring

theorem nonOverlapping_offsets (b : Int) (hb : 0 < b) (n : Nat) :
    NonOverlapping b ((List.range n).map (fun (i : Nat) => (i : Int) * b)) := by
  unfold NonOverlapping
  rw [List.pairwise_map]
  refine (List.pairwise_lt_range n).imp ?_
  intro i j hij
  left
  have h1 : ((i : Int) + 1) * b ≤ (j : Int) * b :=
    Int.mul_le_mul_of_nonneg_right (by omega) (le_of_lt hb)
  have h2 : ((i : Int) + 1) * b = (i : Int) * b + b := by ring
  omega

theorem coversOnce_offsets (r b : Int) (hr : 0 ≤ r) (hb : 0 < b) :
    CoversOnce r b ((List.range (windowCount r b)).map (fun (i : Nat) => (i : Int) * b)) := by
  intro pos hpos hle
  have hq : 0 ≤ pos / b := Int.ediv_nonneg hpos (le_of_lt hb)
  have hqr : pos / b ≤ r / b := Int.ediv_le_ediv hb hle
  have hcast : (((pos / b).toNat : Nat) : Int) = pos / b := Int.toNat_of_nonneg hq
  have hlow : pos / b * b ≤ pos := Int.ediv_mul_le pos (ne_of_gt hb)
  have hhigh : pos < (pos / b + 1) * b := Int.lt_ediv_add_one_mul_self pos hb
  have hexp : (pos / b + 1) * b = pos / b * b + b := by ring
  refine ⟨(pos / b).toNat, ⟨(pos / b) * b, ?_, hlow, by omega⟩, ?_⟩
  · rw [getElem?_offsets]
    refine ⟨?_, by rw [hcast]⟩
    have : ((windowCount r b : Nat) : Int) = r / b + 1 := windowCount_cast r b hr hb
    omega
  · rintro k ⟨c, hc, hc1, hc2⟩
    rw [getElem?_offsets] at hc
    obtain ⟨_, rfl⟩ := hc
    have h1 : (k : Int) ≤ pos / b := Int.le_ediv_of_mul_le hb hc1
    have h2 : pos / b < (k : Int) + 1 := by
      apply Int.ediv_lt_of_lt_mul hb
      have : ((k : Int) + 1) * b = (k : Int) * b + b := by ring
      omega
    omega

/-! ## Lemmas on loops that do not end -/

/-- When `rowCount` is the largest `int`, the condition `counter <= rowCount`
never fails, whatever the batch size. -/
theorem batchOffsets_maxInt (b : Int) :
    ∀ (fuel : Nat) (counter : Int), counter ≤ maxInt →
      (batchOffsets maxInt b fuel counter).2 = Outcome.outOfFuel := by
  intro fuel
  induction fuel with
  | zero => intro counter _; rfl
  | succ fuel ih =>
    intro counter hc
    unfold batchOffsets
    simp only [hc, if_true]
    exact ih _ (wrapInt_range _).2

/-- With batch size 0 the counter stays at 0. -/
theorem batchOffsets_zero (r : Int) (hr : 0 ≤ r) :
    ∀ (fuel : Nat), batchOffsets r 0 fuel 0 = (List.replicate fuel 0, Outcome.outOfFuel) := by
  intro fuel
  induction fuel with
  | zero => rfl
  | succ fuel ih =>
    have h0 : goAdd 0 0 = 0 := by decide
    unfold batchOffsets
    simp only [hr, if_true, h0, ih, List.replicate_succ]

/-! ## Lemmas on `processDatabase` and `mainLoop` with a tool that never fails -/

theorem processDatabase_whole (rt : Runtime) (tool : Tool) (options : Options) (fuel : Nat)
    (db : String) (tables : List Table) (hok : ∀ args, (tool args).stderr = "")
    (hbr : mainBranch options.ForceSplit (getTotalRowCount tables)
      options.DatabaseRowCountTreshold = some Branch.Whole) :
    processDatabase rt tool options fuel db tables
      = ([generateSingleFileBackupArgs rt options db], Outcome.finished) := by
  simp [processDatabase, hbr, generateSingleFileBackup, runCommand_ok tool hok]

theorem processDatabase_schemaPlusData (rt : Runtime) (tool : Tool) (options : Options)
    (fuel : Nat) (db : String) (tables : List Table) (hok : ∀ args, (tool args).stderr = "")
    (hbr : mainBranch options.ForceSplit (getTotalRowCount tables)
      options.DatabaseRowCountTreshold = some Branch.SchemaPlusData) :
    processDatabase rt tool options fuel db tables
      = ([generateSchemaBackupArgs rt options db,
          generateSingleFileDataBackupArgs rt options db], Outcome.finished) := by
  simp [processDatabase, hbr, generateSchemaBackup, generateSingleFileDataBackup,
    runCommand_ok tool hok, andThen]

theorem processDatabase_perTable (rt : Runtime) (tool : Tool) (options : Options)
    (fuel : Nat) (db : String) (tables : List Table) (hok : ∀ args, (tool args).stderr = "")
    (hbr : mainBranch options.ForceSplit (getTotalRowCount tables)
      options.DatabaseRowCountTreshold = some Branch.SchemaPlusPerTableBatches)
    (hb : 0 < options.BatchSize)
    (htables : ∀ t ∈ tables, 0 ≤ t.RowCount
      ∧ (t.RowCount / options.BatchSize + 1) * options.BatchSize ≤ maxInt
      ∧ windowCount t.RowCount options.BatchSize < fuel) :
    processDatabase rt tool options fuel db tables
      = (generateSchemaBackupArgs rt options db
          :: (tables.map (tableWindows rt options db)).flatten, Outcome.finished) := by
  simp [processDatabase, hbr, generateSchemaBackup, runCommand_ok tool hok, andThen,
    tablesLoop_closed rt tool options db fuel hok hb tables htables]

theorem mainBranch_ne_none (forceSplit : Bool) (total threshold : Int) :
    mainBranch forceSplit total threshold ≠ none := by
  unfold mainBranch
  by_cases h : total ≤ threshold
  · cases forceSplit <;> simp [h]
  · have h2 : total > threshold := by omega
    cases forceSplit <;> simp [h, h2]

theorem processDatabase_finished (rt : Runtime) (tool : Tool) (options : Options)
    (fuel : Nat) (db : String) (tables : List Table) (hok : ∀ args, (tool args).stderr = "")
    (hb : 0 < options.BatchSize)
    (htables : ∀ t ∈ tables, 0 ≤ t.RowCount
      ∧ (t.RowCount / options.BatchSize + 1) * options.BatchSize ≤ maxInt
      ∧ windowCount t.RowCount options.BatchSize < fuel) :
    (processDatabase rt tool options fuel db tables).2 = Outcome.finished := by
  cases hbr : mainBranch options.ForceSplit (getTotalRowCount tables)
      options.DatabaseRowCountTreshold with
  | none => exact absurd hbr (mainBranch_ne_none _ _ _)
  | some br =>
    cases br with
    | Whole => rw [processDatabase_whole rt tool options fuel db tables hok hbr]
    | SchemaPlusData =>
      rw [processDatabase_schemaPlusData rt tool options fuel db tables hok hbr]
    | SchemaPlusPerTableBatches =>
      rw [processDatabase_perTable rt tool options fuel db tables hok hbr hb htables]

theorem mainLoop_finished (rt : Runtime) (tool : Tool) (options : Options) (fuel : Nat)
    (hok : ∀ args, (tool args).stderr = "") (hb : 0 < options.BatchSize)
    (dbs : List String)
    (hdbs : ∀ db ∈ dbs, ∃ tables,
      GetTables rt options.HostName options.UserName options.Password db = some tables
      ∧ ∀ t ∈ tables, 0 ≤ t.RowCount
        ∧ (t.RowCount / options.BatchSize + 1) * options.BatchSize ≤ maxInt
        ∧ windowCount t.RowCount options.BatchSize < fuel) :
    (mainLoop rt tool options fuel dbs).2 = Outcome.finished := by
  induction dbs with
  | nil => rfl
  | cons db rest ih =>
    obtain ⟨tables, hget, htables⟩ := hdbs db (List.mem_cons_self _ _)
    have hrest := ih (fun d hd => hdbs d (List.mem_cons_of_mem _ hd))
    have hp := processDatabase_finished rt tool options fuel db tables hok hb htables
    unfold mainLoop
    rw [hget]
    simp only
    have hpair : processDatabase rt tool options fuel db tables
        = ((processDatabase rt tool options fuel db tables).1, Outcome.finished) := by
      rw [← hp]
    rw [hpair, andThen_finished]
    exact hrest

/-! ## Lemmas on `Split` -/

theorem intercalate_cons_cons (sep : List Char) (c : Char) (w : List Char)
    (ws : List (List Char)) :
    List.intercalate sep ((c :: w) :: ws) = c :: List.intercalate sep (w :: ws) := by
  cases ws <;> simp [List.intercalate, List.intersperse]

/-- The pieces of `splitChars`, put together again with the separator between
them, are the input. -/
theorem intercalate_splitChars (sep : Char) (s : List Char) :
    List.intercalate [sep] (splitChars sep s) = s := by
  induction s with
  | nil => simp [splitChars, List.intercalate]
  | cons c cs ih =>
    unfold splitChars
    by_cases hc : c = sep
    · simp only [hc, if_true]
      cases hsp : splitChars sep cs with
      | nil => exact absurd hsp (splitChars_ne_nil sep cs)
      | cons w ws =>
        rw [hsp] at ih
        rw [← ih]
        simp [List.intercalate, List.intersperse]
    · simp only [hc, if_false]
      cases hsp : splitChars sep cs with
      | nil => exact absurd hsp (splitChars_ne_nil sep cs)
      | cons w ws =>
        rw [hsp] at ih
        simp only
        rw [intercalate_cons_cons, ih]

theorem split_data (s : String) (sep : Char) :
    (Split s sep).map String.data = splitChars sep s.data := by
  simp [Split, List.map_map, Function.comp_def]

/-! ## The claims -/

/-- Claim C10 fails as stated: with verbosity 3 a message of type `Error` is
not printed. -/
theorem C10_counterexample : printMessage "boom" 3 Error = [] := by decide

/-- Claim C10, amended: for verbosity 0, 1 or 2 a message of type `Error` is
printed; verbosity 0 prints `Error` only, verbosity 1 exactly `Warning` and
`Error`, verbosity 2 all three types; for every other verbosity nothing is
printed, whatever the type. -/
theorem C10_verbosity_filter (message : String) :
    (∀ verbosity : Int, verbosity = 0 ∨ verbosity = 1 ∨ verbosity = 2 →
        printMessage message verbosity Error = [message])
    ∧ (printMessage message 0 Info = [] ∧ printMessage message 0 Warning = []
        ∧ printMessage message 0 Error = [message])
    ∧ (printMessage message 1 Info = [] ∧ printMessage message 1 Warning = [message]
        ∧ printMessage message 1 Error = [message])
    ∧ (printMessage message 2 Info = [message] ∧ printMessage message 2 Warning = [message]
        ∧ printMessage message 2 Error = [message])
    ∧ (∀ verbosity messageType : Int, verbosity ≠ 0 → verbosity ≠ 1 → verbosity ≠ 2 →
        printMessage message verbosity messageType = []) := by
  refine ⟨?_, ?_, ?_, ?_, ?_⟩
  · rintro v (h | h | h) <;> subst h <;> simp [printMessage, Error]
  · simp [printMessage, Info, Warning, Error]
  · simp [printMessage, Info, Warning, Error]
  · simp [printMessage]
  · intro v t h0 h1 h2
    simp [printMessage, h0, h1, h2]

/-- Claim C10, amended, at verbosity 1 and at verbosity 7. -/
theorem C10_verbosity_filter_witness :
    printMessage "disk full" 1 Error = ["disk full"]
    ∧ printMessage "disk full" 7 Error = [] :=
  ⟨(C10_verbosity_filter "disk full").1 1 (Or.inr (Or.inl rfl)),
   (C10_verbosity_filter "disk full").2.2.2.2 7 Error (by decide) (by decide) (by decide)⟩

/-- Claim C1 fails as stated: for two tables of 9223372036854775807 rows and
1 row the aggregate computed by `getTotalRowCount` is -9223372036854775808,
not the sum 9223372036854775808, and with the default threshold the branch
taken is `Whole`. -/
theorem C1_counterexample :
    getTotalRowCount [NewTable "a" 9223372036854775807, NewTable "b" 1]
        = -9223372036854775808
    ∧ rowCountSum [NewTable "a" 9223372036854775807, NewTable "b" 1] = 9223372036854775808
    ∧ mainBranch false (getTotalRowCount [NewTable "a" 9223372036854775807, NewTable "b" 1])
        10000000 = some Branch.Whole := by
  decide

/-- Claim C1, amended: for every aggregate, threshold and forceSplit flag the
branch of `main` is `Whole` exactly when forceSplit is false and aggregate <=
threshold, `SchemaPlusData` exactly when forceSplit is true and aggregate <=
threshold, `SchemaPlusPerTableBatches` exactly when aggregate > threshold, and
never none of them; the body run for a database is the one of that branch; the
aggregate is `getTotalRowCount`, the sum of the row counts reduced into the
64-bit `int` range, which is the exact sum whenever that sum lies in the
range. -/
theorem C1_threshold_policy (forceSplit : Bool) (totalRowCount threshold : Int)
    (rt : Runtime) (tool : Tool) (options : Options) (fuel : Nat) (db : String)
    (tables : List Table) :
    (mainBranch forceSplit totalRowCount threshold = some Branch.Whole
        ↔ forceSplit = false ∧ totalRowCount ≤ threshold)
    ∧ (mainBranch forceSplit totalRowCount threshold = some Branch.SchemaPlusData
        ↔ forceSplit = true ∧ totalRowCount ≤ threshold)
    ∧ (mainBranch forceSplit totalRowCount threshold = some Branch.SchemaPlusPerTableBatches
        ↔ threshold < totalRowCount)
    ∧ mainBranch forceSplit totalRowCount threshold ≠ none
    ∧ (options.ForceSplit = false
        ∧ getTotalRowCount tables ≤ options.DatabaseRowCountTreshold →
          processDatabase rt tool options fuel db tables
            = generateSingleFileBackup rt tool options db)
    ∧ (options.ForceSplit = true
        ∧ getTotalRowCount tables ≤ options.DatabaseRowCountTreshold →
          processDatabase rt tool options fuel db tables
            = andThen (generateSchemaBackup rt tool options db)
                (fun _ => generateSingleFileDataBackup rt tool options db))
    ∧ (options.DatabaseRowCountTreshold < getTotalRowCount tables →
          processDatabase rt tool options fuel db tables
            = andThen (generateSchemaBackup rt tool options db)
                (fun _ => tablesLoop rt tool options db fuel tables))
    ∧ getTotalRowCount tables = wrapInt (rowCountSum tables)
    ∧ (minInt ≤ rowCountSum tables → rowCountSum tables ≤ maxInt →
          getTotalRowCount tables = rowCountSum tables) := by
  have hbranch : ∀ (f : Bool) (a t : Int),
      (mainBranch f a t = some Branch.Whole ↔ f = false ∧ a ≤ t)
      ∧ (mainBranch f a t = some Branch.SchemaPlusData ↔ f = true ∧ a ≤ t)
      ∧ (mainBranch f a t = some Branch.SchemaPlusPerTableBatches ↔ t < a) := by
    intro f a t
    unfold mainBranch
    by_cases h : a ≤ t
    · have h2 : ¬ t < a := by omega
      cases f <;> simp [h, h2]
    · have h2 : t < a := by omega
      cases f <;> simp [h, h2]
  obtain ⟨hw, hs, hp⟩ := hbranch forceSplit totalRowCount threshold
  obtain ⟨hw2, hs2, hp2⟩ := hbranch options.ForceSplit (getTotalRowCount tables)
    options.DatabaseRowCountTreshold
  refine ⟨hw, hs, hp, mainBranch_ne_none _ _ _, ?_, ?_, ?_, getTotalRowCount_eq_wrap tables, ?_⟩
  · intro h
    simp [processDatabase, hw2.2 h]
  · intro h
    simp [processDatabase, hs2.2 h]
  · intro h
    simp [processDatabase, hp2.2 h]
  · intro h1 h2
    rw [getTotalRowCount_eq_wrap, wrapInt_of_range _ h1 h2]

/-- Claim C1, amended, on a database of two tables with 4,000,000 and
7,000,000 rows under the default threshold: the aggregate is 11,000,000 and
the per-table branch is taken. -/
theorem C1_threshold_policy_witness :
    getTotalRowCount [NewTable "orders" 4000000, NewTable "items" 7000000] = 11000000
    ∧ mainBranch false 11000000 10000000 = some Branch.SchemaPlusPerTableBatches :=
  ⟨(C1_threshold_policy false 11000000 10000000 (sampleRuntime []) okTool
      (sampleOptions 1000000 "") 0 "shop"
      [NewTable "orders" 4000000, NewTable "items" 7000000]).2.2.2.2.2.2.2.2
      (by decide) (by decide),
   (C1_threshold_policy false 11000000 10000000 (sampleRuntime []) okTool
      (sampleOptions 1000000 "") 0 "shop"
      [NewTable "orders" 4000000, NewTable "items" 7000000]).2.2.1.2 (by decide)⟩

/-- Claim C7: for every list of names `removeDuplicates` returns a list
without repeated element, with exactly the names of the input, ordered by
their first occurrence in the input: it is the input with every non-first
occurrence deleted; and `NewOptions` on the databases string `a, a,b , b`
stores the databases `a` and `b`. -/
theorem C7_removeDuplicates (elements : List String) :
    (removeDuplicates elements).Nodup
    ∧ (∀ name, name ∈ removeDuplicates elements ↔ name ∈ elements)
    ∧ (removeDuplicates elements).Sublist elements
    ∧ (removeDuplicates elements).Pairwise
        (fun x y => elements.indexOf x < elements.indexOf y)
    ∧ removeDuplicates elements = firstOccurrences elements
    ∧ (∀ (now : Nat) (hostname username password : String)
        (databasetreshold tablethreshold batchsize : Int) (forcesplit : Bool)
        (additionals : String) (verbosity : Int)
        (mysqldumppath outputDirectory defaultsFile : String) (defaultsProvidedByUser : Bool),
        (NewOptions now hostname username password "a, a,b , b" databasetreshold
          tablethreshold batchsize forcesplit additionals verbosity mysqldumppath
          outputDirectory defaultsFile defaultsProvidedByUser).Databases = ["a", "b"]) := by
  rw [removeDuplicates_eq_firstOccurrences]
  refine ⟨nodup_firstOccurrences _, mem_firstOccurrences _, sublist_firstOccurrences _,
    pairwise_firstOccurrences _, rfl, ?_⟩
  intros
  show removeDuplicates (splitDatabases "a, a,b , b") = ["a", "b"]
  decide

/-- Claim C9 fails as stated: for the databases flag `my db,x` the code stores
the names `mydb` and `x`, while the items trimmed of their leading and
trailing whitespace are `my db` and `x`; and a leading tab is kept. -/
theorem C9_counterexample :
    splitDatabases "my db,x" = ["mydb", "x"]
    ∧ trimmedItems "my db,x" = ["my db", "x"]
    ∧ splitDatabases "\ta" = ["\ta"]
    ∧ trimmedItems "\ta" = ["a"] := by
  decide

/-- Claim C9, amended: for every value of the databases flag, the names
`NewOptions` stores in `Databases` before deduplication are the comma-separated
items of the input, each with all of its space characters removed (leading,
trailing and interior alike) and otherwise unchanged. -/
theorem C9_database_list (now : Nat) (hostname username password databases : String)
    (databasetreshold tablethreshold batchsize : Int) (forcesplit : Bool)
    (additionals : String) (verbosity : Int)
    (mysqldumppath outputDirectory defaultsFile : String) (defaultsProvidedByUser : Bool) :
    splitDatabases databases = (Split databases ',').map removeSpaces
    ∧ (NewOptions now hostname username password databases databasetreshold
          tablethreshold batchsize forcesplit additionals verbosity mysqldumppath
          outputDirectory defaultsFile defaultsProvidedByUser).Databases
        = removeDuplicates ((Split databases ',').map removeSpaces) := by
  refine ⟨splitDatabases_eq databases, ?_⟩
  show removeDuplicates (splitDatabases databases) = _
  rw [splitDatabases_eq]

/-- Claim C6 fails as stated: in a batch invocation the additional argument
`--quick` stands before the row-window restriction, not after it; and an
additional-arguments string with two spaces in a row adds an empty token. -/
theorem C6_counterexample :
    generateTableBackupArgs (sampleRuntime []) (sampleOptions 1000000 "--quick") "shop"
        (NewTable "orders" 2500000) 0 1
      = ["--defaults-extra-file=/backup/pwd.cnf", "-hlocalhost", "-uroot", "--no-create-db",
         "--skip-triggers", "--no-create-info", "--quick", "--where=1=1 LIMIT 0, 1000000",
         "shop", "orders"]
    ∧ additionalArgs (sampleOptions 1000000 "--quick  --compress")
      = ["--quick", "", "--compress"] := by
  decide

/-- Claim C6, amended: every argument list built by `generateSingleFileBackup`,
`generateSchemaBackup`, `generateSingleFileDataBackup` and `generateTableBackup`
starts with the credentials-file reference, the host and the user, followed by
the schema-only or data-only flags of that invocation; the additional
arguments come right after these, as the pieces of the additional-arguments
string cut at every single space (in order, giving the string back when joined
with spaces; no token when the string is empty); after them come only the
output-file argument (on Windows), the row-window restriction of a batch
invocation, and the database and table names. -/
theorem C6_common_arguments (rt : Runtime) (options : Options) (db : String) (table : Table)
    (counter index : Int) :
    generateSingleFileBackupArgs rt options db
        = ["--defaults-extra-file=" ++ options.DefaultsFile, "-h" ++ options.HostName,
           "-u" ++ options.UserName]
          ++ additionalArgs options
          ++ (outputFileArgs rt options db "ALL" ++ [db])
    ∧ generateSchemaBackupArgs rt options db
        = ["--defaults-extra-file=" ++ options.DefaultsFile, "-h" ++ options.HostName,
           "-u" ++ options.UserName, "--no-data"]
          ++ additionalArgs options
          ++ (outputFileArgs rt options db "SCHEMA" ++ [db])
    ∧ generateSingleFileDataBackupArgs rt options db
        = ["--defaults-extra-file=" ++ options.DefaultsFile, "-h" ++ options.HostName,
           "-u" ++ options.UserName, "--no-create-db", "--skip-triggers", "--no-create-info"]
          ++ additionalArgs options
          ++ (outputFileArgs rt options db "DATA" ++ [db])
    ∧ generateTableBackupArgs rt options db table counter index
        = ["--defaults-extra-file=" ++ options.DefaultsFile, "-h" ++ options.HostName,
           "-u" ++ options.UserName, "--no-create-db", "--skip-triggers", "--no-create-info"]
          ++ additionalArgs options
          ++ (outputFileArgs rt options db (table.TableName ++ fmtInt index)
              ++ ["--where=1=1 LIMIT " ++ fmtInt counter ++ ", " ++ fmtInt options.BatchSize,
                  db, table.TableName])
    ∧ (options.AdditionalMySQLDumpArgs = "" → additionalArgs options = [])
    ∧ (options.AdditionalMySQLDumpArgs ≠ "" →
        additionalArgs options = Split options.AdditionalMySQLDumpArgs ' '
        ∧ List.intercalate [' '] ((additionalArgs options).map String.data)
            = options.AdditionalMySQLDumpArgs.data)
    ∧ (∀ name, (outputFileArgs rt options db name).length ≤ 1)
    ∧ (∀ name, rt.GOOS ≠ "windows" → outputFileArgs rt options db name = []) := by
  refine ⟨?_, ?_, ?_, ?_, ?_, ?_, ?_, ?_⟩
  · simp [generateSingleFileBackupArgs, commonArgs]
  · simp [generateSchemaBackupArgs, commonArgs]
  · simp [generateSingleFileDataBackupArgs, commonArgs]
  · simp [generateTableBackupArgs, commonArgs]
  · intro h
    simp [additionalArgs, h]
  · intro h
    have h1 : additionalArgs options = Split options.AdditionalMySQLDumpArgs ' ' := by
      simp [additionalArgs, h]
    refine ⟨h1, ?_⟩
    rw [h1, split_data, intercalate_splitChars]
  · intro name
    unfold outputFileArgs
    split <;> simp
  · intro name h
    simp [outputFileArgs, h]

/-- Claim C6, amended, on the additional arguments `--quick --compress`: they
are two tokens, and without additional arguments none is added. -/
theorem C6_common_arguments_witness :
    additionalArgs (sampleOptions 1000000 "--quick --compress") = ["--quick", "--compress"]
    ∧ additionalArgs (sampleOptions 1000000 "") = [] :=
  ⟨((C6_common_arguments (sampleRuntime []) (sampleOptions 1000000 "--quick --compress") "shop"
      (NewTable "orders" 0) 0 1).2.2.2.2.2.1 (by decide)).1,
   (C6_common_arguments (sampleRuntime []) (sampleOptions 1000000 "") "shop"
      (NewTable "orders" 0) 0 1).2.2.2.2.1 rfl⟩

/-- Claim C2 fails as stated: for rowCount 9223372036854775807 and batchSize
4611686018427387904 the claimed number of windows is 2, yet the first three
iterations of the loop already make three invocations, the third at offset
-9223372036854775808 after the counter has overflowed, and the loop never
ends. -/
theorem C2_counterexample :
    ((9223372036854775807 : Int) / 4611686018427387904).toNat + 1 = 2
    ∧ generateTableBackup (sampleRuntime []) okTool (sampleOptions 4611686018427387904 "")
        "shop" (NewTable "orders" 9223372036854775807) 3
      = ([["--defaults-extra-file=/backup/pwd.cnf", "-hlocalhost", "-uroot", "--no-create-db",
           "--skip-triggers", "--no-create-info",
           "--where=1=1 LIMIT 0, 4611686018427387904", "shop", "orders"],
          ["--defaults-extra-file=/backup/pwd.cnf", "-hlocalhost", "-uroot", "--no-create-db",
           "--skip-triggers", "--no-create-info",
           "--where=1=1 LIMIT 4611686018427387904, 4611686018427387904", "shop", "orders"],
          ["--defaults-extra-file=/backup/pwd.cnf", "-hlocalhost", "-uroot", "--no-create-db",
           "--skip-triggers", "--no-create-info",
           "--where=1=1 LIMIT -9223372036854775808, 4611686018427387904", "shop", "orders"]],
         Outcome.outOfFuel)
    ∧ ¬ ∃ fuel, (generateTableBackup (sampleRuntime []) okTool
          (sampleOptions 4611686018427387904 "") "shop"
          (NewTable "orders" 9223372036854775807) fuel).2 = Outcome.finished := by
  refine ⟨by decide, by decide, ?_⟩
  rintro ⟨fuel, h⟩
  have hloop := generateTableBackupLoop_ok (sampleRuntime []) okTool
    (sampleOptions 4611686018427387904 "") "shop" (NewTable "orders" 9223372036854775807)
    (fun _ => rfl) fuel 0 1
  have hout := batchOffsets_maxInt 4611686018427387904 fuel 0 (by decide)
  unfold generateTableBackup at h
  rw [hloop] at h
  have hout2 : (batchOffsets (NewTable "orders" 9223372036854775807).RowCount
      (sampleOptions 4611686018427387904 "").BatchSize fuel 0).2 = Outcome.outOfFuel := hout
  simp only [hout2] at h
  exact Outcome.noConfusion h

/-- Claim C2, amended: for every rowCount >= 0 and batchSize > 0 with
(floor(rowCount / batchSize) + 1) * batchSize <= 9223372036854775807 (the
counter never overflows), the loop of `generateTableBackup` ends, given more
fuel than windows, after a sequence of exactly floor(rowCount / batchSize) + 1
windows; the window of place k (from 0, index k + 1) has offset k * batchSize
and its invocation carries `--where=1=1 LIMIT <k * batchSize>, <batchSize>`;
the invocations made are those of these windows, in order, up to the first one
on which the tool reports an error, hence all of them when it reports none. -/
theorem C2_batch_windows (rt : Runtime) (tool : Tool) (options : Options) (db : String)
    (table : Table) (fuel : Nat)
    (hr : 0 ≤ table.RowCount) (hb : 0 < options.BatchSize)
    (hbound : (table.RowCount / options.BatchSize + 1) * options.BatchSize ≤ maxInt)
    (hfuel : (table.RowCount / options.BatchSize).toNat + 1 < fuel) :
    batchOffsets table.RowCount options.BatchSize fuel 0
      = ((List.range ((table.RowCount / options.BatchSize).toNat + 1)).map
          (fun (k : Nat) => (k : Int) * options.BatchSize), Outcome.finished)
    ∧ generateTableBackup rt tool options db table fuel
      = stopAtFirstFailure (failsOn tool)
          ((List.range ((table.RowCount / options.BatchSize).toNat + 1)).map
            (fun (k : Nat) => generateTableBackupArgs rt options db table
              ((k : Int) * options.BatchSize) ((k : Int) + 1)))
          Outcome.finished
    ∧ ((∀ args, (tool args).stderr = "") →
        (generateTableBackup rt tool options db table fuel).2 = Outcome.finished
        ∧ (generateTableBackup rt tool options db table fuel).1.length
            = (table.RowCount / options.BatchSize).toNat + 1
        ∧ ∀ k : Nat, k < (table.RowCount / options.BatchSize).toNat + 1 →
            (generateTableBackup rt tool options db table fuel).1[k]?
              = some (generateTableBackupArgs rt options db table
                  ((k : Int) * options.BatchSize) ((k : Int) + 1)))
    ∧ ∀ k : Nat, ("--where=1=1 LIMIT " ++ fmtInt ((k : Int) * options.BatchSize) ++ ", "
              ++ fmtInt options.BatchSize)
            ∈ generateTableBackupArgs rt options db table ((k : Int) * options.BatchSize)
                ((k : Int) + 1) := by
  have hcast := windowCount_cast table.RowCount options.BatchSize hr hb
  have hoff := batchOffsets_closed table.RowCount options.BatchSize hb hbound
    (windowCount table.RowCount options.BatchSize) 0 fuel (by rw [hcast]; simp) hfuel
  simp only [Nat.zero_add, Nat.cast_zero, zero_mul] at hoff
  have hplan := generateTableBackup_closed rt okTool options db table fuel (fun _ => rfl) hr hb
    hbound hfuel
  refine ⟨hoff, ?_, ?_, ?_⟩
  · rw [generateTableBackup_stop, hplan]
    rfl
  · intro hok
    rw [generateTableBackup_closed rt tool options db table fuel hok hr hb hbound hfuel]
    refine ⟨rfl, by simp [tableWindows, windowCount], ?_⟩
    intro k hk
    have hk2 : k < windowCount table.RowCount options.BatchSize := hk
    simp [tableWindows, List.getElem?_map, List.getElem?_range hk2]
  · intro k
    simp [generateTableBackupArgs]

/-- Claim C2, amended, at batchSize 1,000,000: rowCount 2,000,000 and rowCount
2,500,000 both give three windows, at offsets 0, 1,000,000 and 2,000,000, and
three invocations, the third of the former for the window at offset
2,000,000. -/
theorem C2_batch_windows_witness :
    batchOffsets 2000000 1000000 4 0 = ([0, 1000000, 2000000], Outcome.finished)
    ∧ batchOffsets 2500000 1000000 4 0 = ([0, 1000000, 2000000], Outcome.finished)
    ∧ (generateTableBackup (sampleRuntime []) okTool (sampleOptions 1000000 "") "shop"
        (NewTable "orders" 2000000) 4).1.length = 3
    ∧ (generateTableBackup (sampleRuntime []) okTool (sampleOptions 1000000 "") "shop"
        (NewTable "orders" 2000000) 4).1[2]?
      = some ["--defaults-extra-file=/backup/pwd.cnf", "-hlocalhost", "-uroot",
          "--no-create-db", "--skip-triggers", "--no-create-info",
          "--where=1=1 LIMIT 2000000, 1000000", "shop", "orders"] :=
  ⟨(C2_batch_windows (sampleRuntime []) okTool (sampleOptions 1000000 "") "shop"
      (NewTable "orders" 2000000) 4 (by decide) (by decide) (by decide) (by decide)).1,
   (C2_batch_windows (sampleRuntime []) okTool (sampleOptions 1000000 "") "shop"
      (NewTable "orders" 2500000) 4 (by decide) (by decide) (by decide) (by decide)).1,
   ((C2_batch_windows (sampleRuntime []) okTool (sampleOptions 1000000 "") "shop"
      (NewTable "orders" 2000000) 4 (by decide) (by decide) (by decide) (by decide)).2.2.1
      (fun _ => rfl)).2.1,
   ((C2_batch_windows (sampleRuntime []) okTool (sampleOptions 1000000 "") "shop"
      (NewTable "orders" 2000000) 4 (by decide) (by decide) (by decide) (by decide)).2.2.1
      (fun _ => rfl)).2.2 2 (by decide)⟩

/-- Claim C3 fails as stated: for rowCount 9223372036854775807 and batchSize
9223372036854775807 the first three windows of the loop start at 0, at
9223372036854775807 and, after the counter has overflowed, at -2; the third
neither starts where the second ends nor keeps clear of the first, and
position 0 lies in the first and in the third. -/
theorem C3_counterexample :
    batchOffsets 9223372036854775807 9223372036854775807 3 0
      = ([0, 9223372036854775807, -2], Outcome.outOfFuel)
    ∧ generateTableBackup (sampleRuntime []) okTool (sampleOptions 9223372036854775807 "")
        "shop" (NewTable "orders" 9223372036854775807) 3
      = (windowArgs (sampleRuntime []) (sampleOptions 9223372036854775807 "") "shop"
          (NewTable "orders" 9223372036854775807) [0, 9223372036854775807, -2] 1,
         Outcome.outOfFuel)
    ∧ ¬ Consecutive 9223372036854775807 [0, 9223372036854775807, -2]
    ∧ ¬ NonOverlapping 9223372036854775807 [0, 9223372036854775807, -2]
    ∧ ¬ CoversOnce 9223372036854775807 9223372036854775807 [0, 9223372036854775807, -2] := by
  refine ⟨by decide, by decide, ?_, ?_, ?_⟩
  · unfold Consecutive
    simp
  · unfold NonOverlapping
    simp
  · intro h
    obtain ⟨k, _, huniq⟩ := h 0 (by decide) (by decide)
    have h0 : (0 : Nat) = k := huniq 0 ⟨0, by decide, by decide, by decide⟩
    have h2 : (2 : Nat) = k := huniq 2 ⟨-2, by decide, by decide, by decide⟩
    omega

/-- Claim C3, amended: for every rowCount >= 0 and batchSize > 0 with
(floor(rowCount / batchSize) + 1) * batchSize <= 9223372036854775807 (the
counter never overflows), the loop of `generateTableBackup` ends, given more
fuel than windows; the windows [offset, offset + batchSize) at the offsets of
its counter start at 0, each starts where the previous one ends, no two
overlap, and every position from 0 to rowCount lies in exactly one of them;
the invocations made are those of these windows, in order, up to the first one
on which the tool reports an error. -/
theorem C3_batch_coverage (rt : Runtime) (tool : Tool) (options : Options) (db : String)
    (table : Table) (fuel : Nat)
    (hr : 0 ≤ table.RowCount) (hb : 0 < options.BatchSize)
    (hbound : (table.RowCount / options.BatchSize + 1) * options.BatchSize ≤ maxInt)
    (hfuel : (table.RowCount / options.BatchSize).toNat + 1 < fuel) :
    (batchOffsets table.RowCount options.BatchSize fuel 0).2 = Outcome.finished
    ∧ generateTableBackup rt tool options db table fuel
      = stopAtFirstFailure (failsOn tool)
          (windowArgs rt options db table
            (batchOffsets table.RowCount options.BatchSize fuel 0).1 1)
          Outcome.finished
    ∧ Consecutive options.BatchSize (batchOffsets table.RowCount options.BatchSize fuel 0).1
    ∧ NonOverlapping options.BatchSize (batchOffsets table.RowCount options.BatchSize fuel 0).1
    ∧ CoversOnce table.RowCount options.BatchSize
        (batchOffsets table.RowCount options.BatchSize fuel 0).1 := by
  have hcast := windowCount_cast table.RowCount options.BatchSize hr hb
  have hoff := batchOffsets_closed table.RowCount options.BatchSize hb hbound
    (windowCount table.RowCount options.BatchSize) 0 fuel (by rw [hcast]; simp) hfuel
  simp only [Nat.zero_add, Nat.cast_zero, zero_mul] at hoff
  have hloop := generateTableBackupLoop_ok rt okTool options db table (fun _ => rfl) fuel 0 1
  rw [hoff] at hloop
  have hplan : generateTableBackup rt okTool options db table fuel
      = (windowArgs rt options db table
          ((List.range (windowCount table.RowCount options.BatchSize)).map
            (fun (i : Nat) => (i : Int) * options.BatchSize)) 1, Outcome.finished) := hloop
  rw [hoff]
  refine ⟨rfl, ?_, ?_, nonOverlapping_offsets _ hb _, coversOnce_offsets _ _ hr hb⟩
  · rw [generateTableBackup_stop, hplan]
  · exact consecutive_offsets options.BatchSize (table.RowCount / options.BatchSize).toNat

/-- Claim C3, amended, at rowCount 2,500,000 and batchSize 1,000,000: the
offsets are 0, 1,000,000 and 2,000,000 and they cover every position up to
2,500,000 once. -/
theorem C3_batch_coverage_witness :
    (batchOffsets 2500000 1000000 4 0).1 = [0, 1000000, 2000000]
    ∧ CoversOnce 2500000 1000000 (batchOffsets 2500000 1000000 4 0).1 :=
  ⟨by decide,
   (C3_batch_coverage (sampleRuntime []) okTool (sampleOptions 1000000 "") "shop"
      (NewTable "orders" 2500000) 4 (by decide) (by decide) (by decide)
      (by decide)).2.2.2.2⟩

/-- Claim C4 fails as stated: for one table of 9223372036854775807 rows and
batchSize 4611686018427387904 the per-table branch is taken and the claimed
total is 1 + (1 + 1) = 3 invocations, yet with four iterations of the batch
loop five invocations have been made, and the processing never ends. -/
theorem C4_counterexample :
    mainBranch (sampleOptions 4611686018427387904 "").ForceSplit
        (getTotalRowCount [NewTable "orders" 9223372036854775807])
        (sampleOptions 4611686018427387904 "").DatabaseRowCountTreshold
      = some Branch.SchemaPlusPerTableBatches
    ∧ 1 + (((9223372036854775807 : Int) / 4611686018427387904).toNat + 1) = 3
    ∧ (processDatabase (sampleRuntime []) okTool (sampleOptions 4611686018427387904 "") 4
        "shop" [NewTable "orders" 9223372036854775807]).1.length = 5
    ∧ ¬ ∃ fuel, (processDatabase (sampleRuntime []) okTool
          (sampleOptions 4611686018427387904 "") fuel "shop"
          [NewTable "orders" 9223372036854775807]).2 = Outcome.finished := by
  refine ⟨by decide, by decide, by decide, ?_⟩
  rintro ⟨fuel, h⟩
  have hloop := generateTableBackupLoop_ok (sampleRuntime []) okTool
    (sampleOptions 4611686018427387904 "") "shop" (NewTable "orders" 9223372036854775807)
    (fun _ => rfl) fuel 0 1
  have hout : (batchOffsets (NewTable "orders" 9223372036854775807).RowCount
      (sampleOptions 4611686018427387904 "").BatchSize fuel 0).2 = Outcome.outOfFuel :=
    batchOffsets_maxInt 4611686018427387904 fuel 0 (by decide)
  have hbr : mainBranch (sampleOptions 4611686018427387904 "").ForceSplit
      (getTotalRowCount [NewTable "orders" 9223372036854775807])
      (sampleOptions 4611686018427387904 "").DatabaseRowCountTreshold
      = some Branch.SchemaPlusPerTableBatches := by decide
  have hgen : (generateTableBackup (sampleRuntime []) okTool
      (sampleOptions 4611686018427387904 "") "shop"
      (NewTable "orders" 9223372036854775807) fuel).2 = Outcome.outOfFuel := by
    unfold generateTableBackup
    rw [hloop]
    exact hout
  unfold processDatabase at h
  rw [hbr] at h
  simp only [generateSchemaBackup, runCommand_okTool, andThen_finished, tablesLoop] at h
  simp only [andThen, hgen] at h
  exact Outcome.noConfusion h

/-- Claim C4, amended: with a tool that reports no error, the invocations of
one database are: in the `Whole` branch exactly one, whose arguments are the
credentials file, host and user, the additional arguments, the output file (on
Windows) and the database, with no schema-only or data-only flag built in; in
the `SchemaPlusData` branch exactly two, first the one with `--no-data`, then
the one with `--no-create-db`, `--skip-triggers`, `--no-create-info`; in the
`SchemaPlusPerTableBatches` branch, when batchSize > 0 and every table has
rowCount >= 0 and (floor(rowCount / batchSize) + 1) * batchSize <=
9223372036854775807, and the fuel exceeds every window count, the schema-only
one followed, for each table in list order, by its floor(rowCount / batchSize)
+ 1 data-only batch invocations, which end with the database and table names,
so that the total is 1 + the sum over the tables of floor(rowCount /
batchSize) + 1. -/
theorem C4_invocation_sequence (rt : Runtime) (tool : Tool) (options : Options) (fuel : Nat)
    (db : String) (tables : List Table) (hok : ∀ args, (tool args).stderr = "") :
    (mainBranch options.ForceSplit (getTotalRowCount tables) options.DatabaseRowCountTreshold
        = some Branch.Whole →
      processDatabase rt tool options fuel db tables
        = ([commonArgs options ++ additionalArgs options
              ++ outputFileArgs rt options db "ALL" ++ [db]], Outcome.finished))
    ∧ (mainBranch options.ForceSplit (getTotalRowCount tables)
          options.DatabaseRowCountTreshold = some Branch.SchemaPlusData →
      processDatabase rt tool options fuel db tables
        = ([commonArgs options ++ ["--no-data"] ++ additionalArgs options
              ++ outputFileArgs rt options db "SCHEMA" ++ [db],
            commonArgs options ++ ["--no-create-db", "--skip-triggers", "--no-create-info"]
              ++ additionalArgs options ++ outputFileArgs rt options db "DATA" ++ [db]],
           Outcome.finished))
    ∧ (mainBranch options.ForceSplit (getTotalRowCount tables)
          options.DatabaseRowCountTreshold = some Branch.SchemaPlusPerTableBatches →
      0 < options.BatchSize →
      (∀ t ∈ tables, 0 ≤ t.RowCount
        ∧ (t.RowCount / options.BatchSize + 1) * options.BatchSize ≤ maxInt
        ∧ (t.RowCount / options.BatchSize).toNat + 1 < fuel) →
      processDatabase rt tool options fuel db tables
          = ((commonArgs options ++ ["--no-data"] ++ additionalArgs options
                ++ outputFileArgs rt options db "SCHEMA" ++ [db])
              :: (tables.map (tableWindows rt options db)).flatten, Outcome.finished)
        ∧ (processDatabase rt tool options fuel db tables).1.length
          = 1 + (tables.map (fun t => (t.RowCount / options.BatchSize).toNat + 1)).sum
        ∧ ∀ t ∈ tables, (tableWindows rt options db t).length
              = (t.RowCount / options.BatchSize).toNat + 1
            ∧ ∀ args ∈ tableWindows rt options db t, ∃ front,
                args = commonArgs options
                  ++ ["--no-create-db", "--skip-triggers", "--no-create-info"]
                  ++ front ++ [db, t.TableName]) := by
  refine ⟨?_, ?_, ?_⟩
  · intro hbr
    rw [processDatabase_whole rt tool options fuel db tables hok hbr]
    rfl
  · intro hbr
    rw [processDatabase_schemaPlusData rt tool options fuel db tables hok hbr]
    rfl
  · intro hbr hb htables
    have hp := processDatabase_perTable rt tool options fuel db tables hok hbr hb htables
    refine ⟨hp, ?_, ?_⟩
    · rw [hp]
      simp only [List.length_cons, length_flatten_tableWindows]
      unfold windowCount
      omega
    · intro t _
      refine ⟨by simp [tableWindows, windowCount], ?_⟩
      intro args hargs
      simp only [tableWindows, List.mem_map, List.mem_range] at hargs
      obtain ⟨k, _, rfl⟩ := hargs
      refine ⟨additionalArgs options
          ++ outputFileArgs rt options db (t.TableName ++ fmtInt ((k : Int) + 1))
          ++ ["--where=1=1 LIMIT " ++ fmtInt ((k : Int) * options.BatchSize) ++ ", "
              ++ fmtInt options.BatchSize], ?_⟩
      simp [generateTableBackupArgs]

/-- Claim C4, amended, on the tables t1 with 0 rows and t2 with 1,500,000 rows,
batchSize 1,000,000 and threshold 1,000,000: the total is 1 + 1 + 2 = 4
invocations. -/
theorem C4_invocation_sequence_witness :
    (processDatabase (sampleRuntime [])
        okTool { sampleOptions 1000000 "" with DatabaseRowCountTreshold := 1000000 } 3 "shop"
        [NewTable "t1" 0, NewTable "t2" 1500000]).1.length = 4 :=
  ((C4_invocation_sequence (sampleRuntime []) okTool
      { sampleOptions 1000000 "" with DatabaseRowCountTreshold := 1000000 } 3 "shop"
      [NewTable "t1" 0, NewTable "t2" 1500000] (fun _ => rfl)).2.2
    (by decide) (by decide) (by decide)).2.1

/-- Claim C5 fails as stated: with a tool whose process cannot be started, the
run with forcesplit on makes the schema-only invocation, goes on to the
data-only one and ends with exit code 0, not with exit code 4 at the first
invocation. -/
theorem C5_counterexample :
    (notStartedTool ["--defaults-extra-file=/backup/pwd.cnf", "-hlocalhost", "-u", "--no-data",
        "shop"]).started = false
    ∧ main (sampleRuntime [("orders", 2500000)]) notStartedTool
        { databases := "shop", forcesplit := true, defaultsFile := "/backup/pwd.cnf" } 1
      = ([["--defaults-extra-file=/backup/pwd.cnf", "-hlocalhost", "-u", "--no-data", "shop"],
          ["--defaults-extra-file=/backup/pwd.cnf", "-hlocalhost", "-u", "--no-create-db",
           "--skip-triggers", "--no-create-info", "shop"]],
         Outcome.exited 0) := by
  decide

/-- Claim C5, amended: modelling the tool as a function from an argument list
to (stdout, stderr, started-or-not), the run makes the planned invocations
(those of the run in which no invocation fails) strictly in order and, at the
first invocation whose error stream is non-empty, terminates with exit code 4
without attempting any later invocation; whether the process could be started
is not examined; if no planned invocation has a non-empty error stream, every
planned invocation is made and the run ends as planned, which is with exit
code 0 when `GetOptions` returns options, the credentials file is written,
every catalog query succeeds, batchSize > 0 and, for every table, rowCount >= 0
and (floor(rowCount / batchSize) + 1) * batchSize <= 9223372036854775807, the
fuel exceeding every window count. -/
theorem C5_failure_policy (rt : Runtime) (tool : Tool) (flags : Flags) (fuel : Nat) :
    main rt tool flags fuel
      = stopAtFirstFailure (failsOn tool) (main rt okTool flags fuel).1
          (main rt okTool flags fuel).2
    ∧ (∀ (pre post : Trace) (a : List String),
        (main rt okTool flags fuel).1 = pre ++ a :: post →
        (∀ x ∈ pre, (tool x).stderr = "") → (tool a).stderr ≠ "" →
        main rt tool flags fuel = (pre ++ [a], Outcome.exited 4))
    ∧ ((∀ x ∈ (main rt okTool flags fuel).1, (tool x).stderr = "") →
        main rt tool flags fuel = main rt okTool flags fuel)
    ∧ (∀ options, GetOptions rt flags = ([], Except.ok options) →
        (options.DefaultsProvidedByUser = false → createPwdFile rt options = Outcome.finished) →
        0 < options.BatchSize →
        (∀ db ∈ options.Databases, ∃ tables,
          GetTables rt options.HostName options.UserName options.Password db = some tables
          ∧ ∀ t ∈ tables, 0 ≤ t.RowCount
            ∧ (t.RowCount / options.BatchSize + 1) * options.BatchSize ≤ maxInt
            ∧ (t.RowCount / options.BatchSize).toNat + 1 < fuel) →
        (main rt okTool flags fuel).2 = Outcome.exited 0) := by
  have hstop := main_stop rt tool flags fuel
  refine ⟨hstop, ?_, ?_, ?_⟩
  · intro pre post a hplan hpre ha
    rw [hstop, hplan]
    apply stop_at_failure
    · intro x hx
      simp [failsOn, hpre x hx]
    · simp [failsOn, ha]
  · intro hall
    rw [hstop]
    apply stop_of_no_failure
    intro x hx
    simp [failsOn, hall x hx]
  · intro options hg hpwd hb hdbs
    have hloop := mainLoop_finished rt okTool options fuel (fun _ => rfl) hb options.Databases
      hdbs
    have hpair : mainLoop rt okTool options fuel options.Databases
        = ((mainLoop rt okTool options fuel options.Databases).1, Outcome.finished) := by
      rw [← hloop]
    unfold main
    rw [hg]
    simp only
    by_cases hd : options.DefaultsProvidedByUser = true
    · simp only [hd, Bool.not_true, Bool.false_eq_true, if_false]
      rw [andThen_finished, hpair, andThen_finished]
    · simp only [Bool.not_eq_true] at hd
      simp only [hd, Bool.not_false, if_true, hpwd hd]
      rw [andThen_finished, hpair, andThen_finished]

/-- Claim C5, amended, on a tool that fails on the schema-only invocation of
the database `shop`: the run stops there with exit code 4; and with a tool
that never fails the same run ends with exit code 0. -/
theorem C5_failure_policy_witness :
    main (sampleRuntime [("orders", 2500000)])
        (fun args => { stdout := "", stderr := if "--no-data" ∈ args then "denied" else "",
                       started := true })
        { databases := "shop", forcesplit := true, defaultsFile := "/backup/pwd.cnf" } 1
      = ([] ++ [["--defaults-extra-file=/backup/pwd.cnf", "-hlocalhost", "-u", "--no-data",
          "shop"]], Outcome.exited 4)
    ∧ (main (sampleRuntime [("orders", 2500000)]) okTool
        { databases := "shop", forcesplit := true, defaultsFile := "/backup/pwd.cnf" } 5).2
      = Outcome.exited 0 :=
  ⟨(C5_failure_policy (sampleRuntime [("orders", 2500000)])
      (fun args => { stdout := "", stderr := if "--no-data" ∈ args then "denied" else "",
                     started := true })
      { databases := "shop", forcesplit := true, defaultsFile := "/backup/pwd.cnf" } 1).2.1
      []
      [["--defaults-extra-file=/backup/pwd.cnf", "-hlocalhost", "-u", "--no-create-db",
        "--skip-triggers", "--no-create-info", "shop"]]
      ["--defaults-extra-file=/backup/pwd.cnf", "-hlocalhost", "-u", "--no-data", "shop"]
      (by decide) (by simp) (by decide),
   (C5_failure_policy (sampleRuntime [("orders", 2500000)]) okTool
      { databases := "shop", forcesplit := true, defaultsFile := "/backup/pwd.cnf" } 5).2.2.2
      (NewOptions 0 "localhost" "" "" "shop" 10000000 5000000 1000000 true "" 2
        "/usr/bin/mysqldump" "/backup" "/backup/pwd.cnf" true)
      rfl (by decide) (by decide) (by
        intro db hdb
        refine ⟨[NewTable "orders" 2500000], ?_, ?_⟩
        · rfl
        · intro t ht
          have ht2 : t = NewTable "orders" 2500000 := by simpa using ht
          subst ht2
          decide)⟩

/-- Claim C8 fails as stated: with batchsize 0 `GetOptions` returns options
with BatchSize 0 and no error, and the run goes on to the database `shop`,
where the batch loop is entered and asks for the window `LIMIT 0, 0` again and
again. -/
theorem C8_counterexample :
    (∃ options, GetOptions (sampleRuntime [("orders", 2500000)])
          { databases := "shop", batchsize := 0, dbthreshold := 1000000,
            defaultsFile := "/backup/pwd.cnf" } = ([], Except.ok options)
        ∧ options.BatchSize = 0)
    ∧ main (sampleRuntime [("orders", 2500000)]) okTool
        { databases := "shop", batchsize := 0, dbthreshold := 1000000,
          defaultsFile := "/backup/pwd.cnf" } 2
      = ([["--defaults-extra-file=/backup/pwd.cnf", "-hlocalhost", "-u", "--no-data", "shop"],
          ["--defaults-extra-file=/backup/pwd.cnf", "-hlocalhost", "-u", "--no-create-db",
           "--skip-triggers", "--no-create-info", "--where=1=1 LIMIT 0, 0", "shop", "orders"],
          ["--defaults-extra-file=/backup/pwd.cnf", "-hlocalhost", "-u", "--no-create-db",
           "--skip-triggers", "--no-create-info", "--where=1=1 LIMIT 0, 0", "shop", "orders"]],
         Outcome.outOfFuel) := by
  refine ⟨⟨_, rfl, rfl⟩, by decide⟩

/-- Claim C8, amended: the batch size is not validated. `GetOptions` never
inspects it: its result for any batch size, also one <= 0, is its result for
any other batch size with only the field BatchSize changed; it ends the run
only for a missing dump binary (exit code 1) or in test mode (exit code 4),
and otherwise, the binary existing and the test flag being off, returns
options whose BatchSize is the value of the flag. When the credentials file is
supplied by the user or is created and written without error, `main` then goes
on to the loop over the databases with these options. The loop of
`generateTableBackup` is entered for every table with rowCount >= 0, its first
invocation being built for offset 0 with that batch size; with batchSize 0 and
a tool that reports no error every iteration is built for offset 0 and the
loop does not end, so that a run whose first database falls in the per-table
branch with a first table of rowCount >= 0 makes the schema-only invocation,
repeats the invocation for offset 0 and never ends. -/
theorem C8_batch_size_unchecked (rt : Runtime) (tool : Tool) (flags : Flags)
    (options : Options) (db : String) (table : Table) (fuel : Nat) :
    (∀ n : Int, GetOptions rt { flags with batchsize := n }
        = ((GetOptions rt flags).1,
           (GetOptions rt flags).2.map (fun o => { o with BatchSize := n })))
    ∧ (rt.IsNotExist (defaultDumpPath rt flags) = true →
        GetOptions rt flags = ([], Except.error 1))
    ∧ (rt.IsNotExist (defaultDumpPath rt flags) = false → flags.test = true →
        GetOptions rt flags = ([testArgs], Except.error 4))
    ∧ (rt.IsNotExist (defaultDumpPath rt flags) = false → flags.test = false →
        ∃ opts, GetOptions rt flags = ([], Except.ok opts) ∧ opts.BatchSize = flags.batchsize)
    ∧ (∀ opts, GetOptions rt flags = ([], Except.ok opts) →
        (opts.DefaultsProvidedByUser = false → createPwdFile rt opts = Outcome.finished) →
        main rt tool flags fuel
          = andThen (mainLoop rt tool opts fuel opts.Databases)
              (fun _ => ([], Outcome.exited 0)))
    ∧ (0 ≤ table.RowCount →
        ∃ rest o, generateTableBackup rt tool options db table (fuel + 1)
          = (generateTableBackupArgs rt options db table 0 1 :: rest, o))
    ∧ (options.BatchSize = 0 → 0 ≤ table.RowCount → (∀ args, (tool args).stderr = "") →
        generateTableBackup rt tool options db table fuel
          = (windowArgs rt options db table (List.replicate fuel 0) 1, Outcome.outOfFuel))
    ∧ (∀ (opts : Options) (dbs : List String) (tables : List Table),
        GetOptions rt flags = ([], Except.ok opts) →
        (opts.DefaultsProvidedByUser = false → createPwdFile rt opts = Outcome.finished) →
        opts.BatchSize = 0 → opts.Databases = db :: dbs →
        GetTables rt opts.HostName opts.UserName opts.Password db = some (table :: tables) →
        mainBranch opts.ForceSplit (getTotalRowCount (table :: tables))
          opts.DatabaseRowCountTreshold = some Branch.SchemaPlusPerTableBatches →
        0 ≤ table.RowCount → (∀ args, (tool args).stderr = "") →
        main rt tool flags fuel
          = (generateSchemaBackupArgs rt opts db
              :: windowArgs rt opts db table (List.replicate fuel 0) 1,
             Outcome.outOfFuel)) := by
  have hmain : ∀ opts, GetOptions rt flags = ([], Except.ok opts) →
      (opts.DefaultsProvidedByUser = false → createPwdFile rt opts = Outcome.finished) →
      main rt tool flags fuel
        = andThen (mainLoop rt tool opts fuel opts.Databases)
            (fun _ => ([], Outcome.exited 0)) := by
    intro opts hg hpwd
    unfold main
    rw [hg]
    simp only
    by_cases hd : opts.DefaultsProvidedByUser = true
    · simp only [hd, Bool.not_true, Bool.false_eq_true, if_false]
      rw [andThen_finished]
      simp
    · simp only [Bool.not_eq_true] at hd
      simp only [hd, Bool.not_false, if_true, hpwd hd]
      rw [andThen_finished]
      simp
  have hzero : ∀ (o : Options), o.BatchSize = 0 → 0 ≤ table.RowCount →
      (∀ args, (tool args).stderr = "") →
      generateTableBackup rt tool o db table fuel
        = (windowArgs rt o db table (List.replicate fuel 0) 1, Outcome.outOfFuel) := by
    intro o hb hr hok
    have hloop := generateTableBackupLoop_ok rt tool o db table hok fuel 0 1
    rw [hb, batchOffsets_zero table.RowCount hr fuel] at hloop
    exact hloop
  refine ⟨?_, ?_, ?_, ?_, hmain, ?_, hzero options, ?_⟩
  · intro n
    have hpath : defaultDumpPath rt { flags with batchsize := n } = defaultDumpPath rt flags :=
      rfl
    unfold GetOptions
    simp only [hpath]
    by_cases h1 : rt.IsNotExist (defaultDumpPath rt flags) = true
    · simp only [h1, if_true, Except.map]
    · simp only [Bool.not_eq_true] at h1
      by_cases h2 : flags.test = true
      · simp only [h1, h2, Bool.false_eq_true, if_false, if_true, Except.map]
      · simp only [Bool.not_eq_true] at h2
        simp only [h1, h2, Bool.false_eq_true, if_false, Except.map, NewOptions]
  · intro h1
    rcases GetOptions_cases rt flags with ⟨_, h⟩ | ⟨h, _⟩ | ⟨h, _⟩
    · exact h
    · rw [h1] at h; exact absurd h (by decide)
    · rw [h1] at h; exact absurd h (by decide)
  · intro h1 h2
    rcases GetOptions_cases rt flags with ⟨h, _⟩ | ⟨_, _, h⟩ | ⟨_, h, _⟩
    · rw [h1] at h; exact absurd h (by decide)
    · exact h
    · rw [h2] at h; exact absurd h (by decide)
  · intro h1 h2
    rcases GetOptions_cases rt flags with ⟨h, _⟩ | ⟨_, h, _⟩ | ⟨_, _, h⟩
    · rw [h1] at h; exact absurd h (by decide)
    · rw [h2] at h; exact absurd h (by decide)
    · exact h
  · intro hr
    unfold generateTableBackup generateTableBackupLoop
    simp only [hr, if_true]
    cases runCommand tool (generateTableBackupArgs rt options db table 0 1) with
    | finished => exact ⟨_, _, rfl⟩
    | exited code => exact ⟨[], _, rfl⟩
    | panicked => exact ⟨[], _, rfl⟩
    | outOfFuel => exact ⟨[], _, rfl⟩
  · intro opts dbs tables hg hpwd hb hdbs hget hbr hr hok
    rw [hmain opts hg hpwd, hdbs]
    unfold mainLoop
    rw [hget]
    simp only
    unfold processDatabase
    rw [hbr]
    simp only [generateSchemaBackup, runCommand_ok tool hok, andThen_finished, tablesLoop,
      hzero opts hb hr hok]
    simp [andThen]

/-- Claim C8, amended, at batch size 0 with the credentials file created by
the program, a threshold of 1,000,000 and one table of 2,500,000 rows:
`GetOptions` returns options with BatchSize 0, and with three iterations of
the batch loop the run has made the schema-only invocation and three
invocations for offset 0, and has not ended. -/
theorem C8_batch_size_unchecked_witness :
    (∃ opts, GetOptions (sampleRuntime [("orders", 2500000)])
          { databases := "shop", batchsize := 0, dbthreshold := 1000000 }
        = ([], Except.ok opts) ∧ opts.BatchSize = 0)
    ∧ main (sampleRuntime [("orders", 2500000)]) okTool
        { databases := "shop", batchsize := 0, dbthreshold := 1000000 } 3
      = ([["--defaults-extra-file=/backup/pwd.cnf", "-hlocalhost", "-u", "--no-data", "shop"],
          ["--defaults-extra-file=/backup/pwd.cnf", "-hlocalhost", "-u", "--no-create-db",
           "--skip-triggers", "--no-create-info", "--where=1=1 LIMIT 0, 0", "shop", "orders"],
          ["--defaults-extra-file=/backup/pwd.cnf", "-hlocalhost", "-u", "--no-create-db",
           "--skip-triggers", "--no-create-info", "--where=1=1 LIMIT 0, 0", "shop", "orders"],
          ["--defaults-extra-file=/backup/pwd.cnf", "-hlocalhost", "-u", "--no-create-db",
           "--skip-triggers", "--no-create-info", "--where=1=1 LIMIT 0, 0", "shop", "orders"]],
         Outcome.outOfFuel) :=
  ⟨(C8_batch_size_unchecked (sampleRuntime [("orders", 2500000)]) okTool
      { databases := "shop", batchsize := 0, dbthreshold := 1000000 }
      (sampleOptions 0 "") "shop" (NewTable "orders" 2500000) 3).2.2.2.1 rfl rfl,
   (C8_batch_size_unchecked (sampleRuntime [("orders", 2500000)]) okTool
      { databases := "shop", batchsize := 0, dbthreshold := 1000000 }
      (sampleOptions 0 "") "shop" (NewTable "orders" 2500000) 3).2.2.2.2.2.2.2
      (NewOptions 0 "localhost" "" "" "shop" 1000000 5000000 0 false "" 2
        "/usr/bin/mysqldump" "/backup" "/backup/pwd.cnf" false)
      [] [] rfl (fun _ => by decide) rfl (by decide) rfl (by decide) (by decide)
      (fun _ => rfl)⟩

end MysqldumpSplit
